import Mathlib

/-!
hs_time: calendar conversions and clock operations.

A shallow embedding of `hs_time.c` / `hs_time.h`.

* C structures become Lean structures. Unsigned fields (`uint8_t`, `uint16_t`,
  `uint64_t`) are `Nat`, signed fields (`int`, `time_t`, `long`) are `Int`; every
  store into an unsigned field reduces the value modulo `2^w`.
* A pointer parameter is an `Option`: `none` is `NULL`, `some v` is a pointer to
  an object that currently holds `v`. A function that writes through a pointer
  returns the object's contents after the call next to its return code.
* Operating-system primitives are fields of `Os`; every call of one is appended
  to a trace of `OsCall`s.
-/

namespace HsTime

/-! ## Data model -/

/-- The calendar record `hs_date_time_t` (hs_time.h, lines 23-33). `tm_year` and
`tm_yday` are `uint16_t`, the other fields are `uint8_t`. -/
structure hs_date_time where
  tm_year : Nat
  tm_mon : Nat
  tm_mday : Nat
  tm_hour : Nat
  tm_min : Nat
  tm_sec : Nat
  tm_yday : Nat
  tm_wday : Nat
deriving DecidableEq

/-- The values a `hs_date_time_t` object can hold: every field fits its C type. -/
def hs_date_time.representable (d : hs_date_time) : Prop :=
  d.tm_year < 65536 ∧ d.tm_mon < 256 ∧ d.tm_mday < 256 ∧ d.tm_hour < 256 ∧
  d.tm_min < 256 ∧ d.tm_sec < 256 ∧ d.tm_yday < 65536 ∧ d.tm_wday < 256

instance (d : hs_date_time) : Decidable d.representable := by
  unfold hs_date_time.representable; infer_instance

/-- The ranges documented next to the fields of `hs_date_time_t` in hs_time.h:
month 1..12, day 1..31, hour 0..23, minute 0..59, second 0..59, day of year
1..366, weekday 1..7, and a year that fits `uint16_t`. -/
def hs_date_time.documented (d : hs_date_time) : Prop :=
  d.tm_year < 65536 ∧ (1 ≤ d.tm_mon ∧ d.tm_mon ≤ 12) ∧ (1 ≤ d.tm_mday ∧ d.tm_mday ≤ 31) ∧
  d.tm_hour ≤ 23 ∧ d.tm_min ≤ 59 ∧ d.tm_sec ≤ 59 ∧
  (1 ≤ d.tm_yday ∧ d.tm_yday ≤ 366) ∧ (1 ≤ d.tm_wday ∧ d.tm_wday ≤ 7)

instance (d : hs_date_time) : Decidable d.documented := by
  unfold hs_date_time.documented; infer_instance

/-- The C library's `struct tm`: the nine `int` fields of the standard. -/
structure tm where
  tm_sec : Int
  tm_min : Int
  tm_hour : Int
  tm_mday : Int
  tm_mon : Int
  tm_year : Int
  tm_wday : Int
  tm_yday : Int
  tm_isdst : Int
deriving DecidableEq

/-- The kernel's `struct rtc_time` (linux/rtc.h): the same nine `int` fields. -/
structure rtc_time where
  tm_sec : Int
  tm_min : Int
  tm_hour : Int
  tm_mday : Int
  tm_mon : Int
  tm_year : Int
  tm_wday : Int
  tm_yday : Int
  tm_isdst : Int
deriving DecidableEq

/-- The ranges of the native civil record: month 0..11, day 1..31, hour 0..23,
minute 0..59, second 0..59, weekday 0..6 (0 is Sunday), day of year 0..365, and a
year offset `y` with `0 ≤ y + 1900 ≤ 65535`. -/
def tm.native_range (t : tm) : Prop :=
  (0 ≤ t.tm_mon ∧ t.tm_mon ≤ 11) ∧ (1 ≤ t.tm_mday ∧ t.tm_mday ≤ 31) ∧
  (0 ≤ t.tm_hour ∧ t.tm_hour ≤ 23) ∧ (0 ≤ t.tm_min ∧ t.tm_min ≤ 59) ∧
  (0 ≤ t.tm_sec ∧ t.tm_sec ≤ 59) ∧ (0 ≤ t.tm_wday ∧ t.tm_wday ≤ 6) ∧
  (0 ≤ t.tm_yday ∧ t.tm_yday ≤ 365) ∧ (0 ≤ t.tm_year + 1900 ∧ t.tm_year + 1900 ≤ 65535)

instance (t : tm) : Decidable t.native_range := by
  unfold tm.native_range; infer_instance

/-- The same ranges for the RTC record. -/
def rtc_time.native_range (t : rtc_time) : Prop :=
  (0 ≤ t.tm_mon ∧ t.tm_mon ≤ 11) ∧ (1 ≤ t.tm_mday ∧ t.tm_mday ≤ 31) ∧
  (0 ≤ t.tm_hour ∧ t.tm_hour ≤ 23) ∧ (0 ≤ t.tm_min ∧ t.tm_min ≤ 59) ∧
  (0 ≤ t.tm_sec ∧ t.tm_sec ≤ 59) ∧ (0 ≤ t.tm_wday ∧ t.tm_wday ≤ 6) ∧
  (0 ≤ t.tm_yday ∧ t.tm_yday ≤ 365) ∧ (0 ≤ t.tm_year + 1900 ∧ t.tm_year + 1900 ≤ 65535)

instance (t : rtc_time) : Decidable t.native_range := by
  unfold rtc_time.native_range; infer_instance

/-- The object a `= {0}` initialiser leaves in a `struct tm`. -/
def tm.zero : tm := ⟨0, 0, 0, 0, 0, 0, 0, 0, 0⟩

/-- The object a `= {0}` initialiser leaves in a `struct rtc_time`. -/
def rtc_time.zero : rtc_time := ⟨0, 0, 0, 0, 0, 0, 0, 0, 0⟩

/-- The object a `= {0}` initialiser leaves in a `hs_date_time_t`. -/
def hs_date_time.zero : hs_date_time := ⟨0, 0, 0, 0, 0, 0, 0, 0⟩

/-- Conversion of an `int` value to `uint8_t`. -/
def to_uint8 (x : Int) : Nat := (x % 256).toNat

/-- Conversion of an `int` value to `uint16_t`. -/
def to_uint16 (x : Int) : Nat := (x % 65536).toNat

/-- Conversion of a signed 64-bit value to `uint64_t`. -/
def to_uint64 (x : Int) : Nat := (x % 18446744073709551616).toNat

/-- The range of the C type `int`. -/
def int_range (x : Int) : Prop := -2147483648 ≤ x ∧ x ≤ 2147483647

instance (x : Int) : Decidable (int_range x) := by
  unfold int_range; infer_instance

/-! ## The four converters (hs_time.c, lines 33-154) -/

/-- `hs_time_date_time_to_tm` (lines 33-55). The operands of the subtractions are
promoted to `int`, so `tm_year - 1900`, `tm_mon - 1` and `tm_yday - 1` are signed
differences. Returns the code and the contents of `*system_time` afterwards. -/
def hs_time_date_time_to_tm (system_time : Option tm) (date_time : Option hs_date_time) :
    Int × Option tm :=
  match system_time with
  | none => (-1, none)
  | some st =>
    match date_time with
    | none => (-2, some st)
    | some d =>
      (0, some { st with
        tm_year := (d.tm_year : Int) - 1900
        tm_mon := (d.tm_mon : Int) - 1
        tm_mday := (d.tm_mday : Int)
        tm_hour := (d.tm_hour : Int)
        tm_min := (d.tm_min : Int)
        tm_sec := (d.tm_sec : Int)
        tm_yday := (d.tm_yday : Int) - 1
        tm_wday := if d.tm_wday = 7 then 0 else (d.tm_wday : Int) })

/-- `hs_time_tm_to_date_time` (lines 66-88). Each `int` result is converted to the
unsigned type of the field it is stored in. -/
def hs_time_tm_to_date_time (date_time : Option hs_date_time) (system_time : Option tm) :
    Int × Option hs_date_time :=
  match date_time with
  | none => (-1, none)
  | some d =>
    match system_time with
    | none => (-2, some d)
    | some st =>
      (0, some { d with
        tm_year := to_uint16 (st.tm_year + 1900)
        tm_mon := to_uint8 (st.tm_mon + 1)
        tm_mday := to_uint8 st.tm_mday
        tm_hour := to_uint8 st.tm_hour
        tm_min := to_uint8 st.tm_min
        tm_sec := to_uint8 st.tm_sec
        tm_yday := to_uint16 (st.tm_yday + 1)
        tm_wday := if st.tm_wday = 0 then 7 else to_uint8 st.tm_wday })

/-- `hs_time_date_time_to_rtc_time` (lines 99-121). -/
def hs_time_date_time_to_rtc_time (rtc_tm : Option rtc_time) (date_time : Option hs_date_time) :
    Int × Option rtc_time :=
  match rtc_tm with
  | none => (-1, none)
  | some r =>
    match date_time with
    | none => (-2, some r)
    | some d =>
      (0, some { r with
        tm_year := (d.tm_year : Int) - 1900
        tm_mon := (d.tm_mon : Int) - 1
        tm_mday := (d.tm_mday : Int)
        tm_hour := (d.tm_hour : Int)
        tm_min := (d.tm_min : Int)
        tm_sec := (d.tm_sec : Int)
        tm_yday := (d.tm_yday : Int) - 1
        tm_wday := if d.tm_wday = 7 then 0 else (d.tm_wday : Int) })

/-- `hs_time_rtc_time_to_date_time` (lines 132-154). -/
def hs_time_rtc_time_to_date_time (date_time : Option hs_date_time) (rtc_tm : Option rtc_time) :
    Int × Option hs_date_time :=
  match date_time with
  | none => (-1, none)
  | some d =>
    match rtc_tm with
    | none => (-2, some d)
    | some r =>
      (0, some { d with
        tm_year := to_uint16 (r.tm_year + 1900)
        tm_mon := to_uint8 (r.tm_mon + 1)
        tm_mday := to_uint8 r.tm_mday
        tm_hour := to_uint8 r.tm_hour
        tm_min := to_uint8 r.tm_min
        tm_sec := to_uint8 r.tm_sec
        tm_yday := to_uint16 (r.tm_yday + 1)
        tm_wday := if r.tm_wday = 0 then 7 else to_uint8 r.tm_wday })

/-- One civil round trip: `hs_time_date_time_to_tm` into a `struct tm` holding
`st`, then `hs_time_tm_to_date_time` of that record into an object holding `d`.
The result is the object's contents afterwards. -/
def civil_round_trip (st : tm) (d : hs_date_time) : hs_date_time :=
  ((hs_time_tm_to_date_time (some d) (hs_time_date_time_to_tm (some st) (some d)).2).2).getD d

/-- One RTC round trip, likewise through `struct rtc_time`. -/
def rtc_round_trip (r : rtc_time) (d : hs_date_time) : hs_date_time :=
  ((hs_time_rtc_time_to_date_time (some d)
    (hs_time_date_time_to_rtc_time (some r) (some d)).2).2).getD d

/-! ## Operating-system interface -/

/-- A `struct timespec`: `tv_sec` is a `time_t`, `tv_nsec` a `long`, both signed
64-bit. -/
structure timespec where
  tv_sec : Int
  tv_nsec : Int
deriving DecidableEq

/-- The two clocks the module reads. -/
inductive clockid where
  | CLOCK_REALTIME
  | CLOCK_MONOTONIC
deriving DecidableEq

/-- One call of an operating-system primitive, with the arguments the module
passes. -/
inductive OsCall where
  | clock_gettime (clk : clockid)
  | localtime_r (timep : Int)
  | mktime (t : tm)
  | clock_settime (clk : clockid) (ts : timespec)
  | open_rdwr (path : List Char)
  | ioctl_set_time (fd : Int) (r : rtc_time)
  | ioctl_rd_time (fd : Int)
  | close (fd : Int)
  | readlink (path : List Char)
  | access (path : List Char)
  | unlink (path : List Char)
  | symlink (target : List Char) (linkpath : List Char)
  | tzset
deriving DecidableEq

/-- The behaviour of the operating system: what each primitive answers.
* `clock_gettime clk` is the return value and the `timespec` written;
* `localtime_r t` is `none` for a `NULL` result, else the record written;
* `mktime t` and `clock_settime clk ts` are the return values;
* `open_rdwr path` is the descriptor returned by `open(path, O_RDWR)`;
* `ioctl_set_time fd r` is the return value of `ioctl(fd, RTC_SET_TIME, &r)`;
* `ioctl_rd_time fd` is the return value of `ioctl(fd, RTC_RD_TIME, &r)` and the
  record left in `r`;
* `readlink path` is `none` for a negative return value, else the bytes stored;
* `access path` and `symlink target linkpath` are the return values;
* `unlink path` is the return value and the value of `errno` afterwards. -/
structure Os where
  clock_gettime : clockid → Int × timespec
  localtime_r : Int → Option tm
  mktime : tm → Int
  clock_settime : clockid → timespec → Int
  open_rdwr : List Char → Int
  ioctl_set_time : Int → rtc_time → Int
  ioctl_rd_time : Int → Int × rtc_time
  readlink : List Char → Option (List Char)
  access : List Char → Int
  unlink : List Char → Int × Int
  symlink : List Char → List Char → Int

/-- What a public operation leaves behind: its return code, the contents of the
object its output pointer refers to (`none` for a `NULL` pointer), and the
operating-system calls it made, in order. -/
structure Outcome (α : Type) where
  ret : Int
  out : α
  trace : List OsCall

/-- Reinterpretation of a `uint64_t` object as a `time_t` (the pointer cast of
line 441). -/
def to_int64 (u : Nat) : Int :=
  if u < 9223372036854775808 then (u : Int) else (u : Int) - 18446744073709551616

/-- The value `tv_sec * 1000 + tv_nsec / 1000000` stored into a `uint64_t`
(lines 410 and 428). The arithmetic is signed 64-bit with C's truncating
division; the store reduces modulo `2^64`. -/
def timespec_to_ms (ts : timespec) : Nat :=
  to_uint64 (ts.tv_sec * 1000 + Int.tdiv ts.tv_nsec 1000000)

/-! ## Clock operations (hs_time.c, lines 338-553) -/

/-- `hs_time_get_local_time` (lines 338-363). -/
def hs_time_get_local_time (os : Os) (local_time : Option hs_date_time) :
    Outcome (Option hs_date_time) :=
  match local_time with
  | none => ⟨-1, none, []⟩
  | some d =>
    let cg := os.clock_gettime clockid.CLOCK_REALTIME
    let tr1 := [OsCall.clock_gettime clockid.CLOCK_REALTIME]
    if cg.1 = -1 then ⟨-2, some d, tr1⟩
    else
      let tr2 := tr1 ++ [OsCall.localtime_r cg.2.tv_sec]
      match os.localtime_r cg.2.tv_sec with
      | none => ⟨-3, some d, tr2⟩
      | some local_time_system =>
        let c := hs_time_tm_to_date_time (some d) (some local_time_system)
        if c.1 ≠ 0 then ⟨-4, c.2, tr2⟩ else ⟨0, c.2, tr2⟩

/-- `hs_time_set_local_time` (lines 365-395). -/
def hs_time_set_local_time (os : Os) (local_time : Option hs_date_time) : Outcome Unit :=
  match local_time with
  | none => ⟨-1, (), []⟩
  | some d =>
    let c := hs_time_date_time_to_tm (some tm.zero) (some d)
    if c.1 ≠ 0 then ⟨-2, (), []⟩
    else
      let new_time := { c.2.getD tm.zero with tm_isdst := -1 }
      let mk_ret := os.mktime new_time
      let tr1 := [OsCall.mktime new_time]
      if mk_ret = -1 then ⟨-3, (), tr1⟩
      else
        let time_spec : timespec := ⟨mk_ret, 0⟩
        let tr2 := tr1 ++ [OsCall.clock_settime clockid.CLOCK_REALTIME time_spec]
        if os.clock_settime clockid.CLOCK_REALTIME time_spec = -1 then ⟨-4, (), tr2⟩
        else ⟨0, (), tr2⟩

/-- `hs_time_get_current_timestamp_ms` (lines 397-413). -/
def hs_time_get_current_timestamp_ms (os : Os) (timestamp_ms : Option Nat) :
    Outcome (Option Nat) :=
  match timestamp_ms with
  | none => ⟨-1, none, []⟩
  | some v =>
    let cg := os.clock_gettime clockid.CLOCK_REALTIME
    let tr1 := [OsCall.clock_gettime clockid.CLOCK_REALTIME]
    if cg.1 = -1 then ⟨-2, some v, tr1⟩
    else ⟨0, some (timespec_to_ms cg.2), tr1⟩

/-- `hs_time_get_uptime_ms` (lines 415-431). -/
def hs_time_get_uptime_ms (os : Os) (uptime_ms : Option Nat) : Outcome (Option Nat) :=
  match uptime_ms with
  | none => ⟨-1, none, []⟩
  | some v =>
    let cg := os.clock_gettime clockid.CLOCK_MONOTONIC
    let tr1 := [OsCall.clock_gettime clockid.CLOCK_MONOTONIC]
    if cg.1 = -1 then ⟨-2, some v, tr1⟩
    else ⟨0, some (timespec_to_ms cg.2), tr1⟩

/-- `hs_time_convert_unix_to_local` (lines 433-452). -/
def hs_time_convert_unix_to_local (os : Os) (local_time : Option hs_date_time)
    (unix_timestamp_s : Nat) : Outcome (Option hs_date_time) :=
  match local_time with
  | none => ⟨-1, none, []⟩
  | some d =>
    let tr1 := [OsCall.localtime_r (to_int64 unix_timestamp_s)]
    match os.localtime_r (to_int64 unix_timestamp_s) with
    | none => ⟨-2, some d, tr1⟩
    | some local_time_system =>
      let c := hs_time_tm_to_date_time (some d) (some local_time_system)
      if c.1 ≠ 0 then ⟨-3, c.2, tr1⟩ else ⟨0, c.2, tr1⟩

/-- `hs_time_convert_local_to_unix` (lines 454-480). The `struct tm` handed to
`mktime` starts as `{0}` and only the eight converted fields are written. -/
def hs_time_convert_local_to_unix (os : Os) (unix_timestamp_s : Option Nat)
    (local_time : Option hs_date_time) : Outcome (Option Nat) :=
  match unix_timestamp_s with
  | none => ⟨-1, none, []⟩
  | some u =>
    match local_time with
    | none => ⟨-2, some u, []⟩
    | some d =>
      let c := hs_time_date_time_to_tm (some tm.zero) (some d)
      if c.1 ≠ 0 then ⟨-3, some u, []⟩
      else
        let local_time_system := c.2.getD tm.zero
        let mk_ret := os.mktime local_time_system
        let tr1 := [OsCall.mktime local_time_system]
        if mk_ret = -1 then ⟨-4, some u, tr1⟩
        else ⟨0, some (to_uint64 mk_ret), tr1⟩

/-- `hs_time_set_hardware_clock_from_system_time` (lines 482-517). -/
def hs_time_set_hardware_clock_from_system_time (os : Os) (device : Option (List Char)) :
    Outcome Unit :=
  match device with
  | none => ⟨-1, (), []⟩
  | some dev =>
    let g := hs_time_get_local_time os (some hs_date_time.zero)
    if g.ret ≠ 0 then ⟨-2, (), g.trace⟩
    else
      let local_time := g.out.getD hs_date_time.zero
      let c := hs_time_date_time_to_rtc_time (some rtc_time.zero) (some local_time)
      if c.1 ≠ 0 then ⟨-3, (), g.trace⟩
      else
        let rtc_tm := c.2.getD rtc_time.zero
        let fd := os.open_rdwr dev
        let tr1 := g.trace ++ [OsCall.open_rdwr dev]
        if fd < 0 then ⟨-4, (), tr1⟩
        else
          let tr2 := tr1 ++ [OsCall.ioctl_set_time fd rtc_tm]
          if os.ioctl_set_time fd rtc_tm = -1 then ⟨-5, (), tr2 ++ [OsCall.close fd]⟩
          else ⟨0, (), tr2 ++ [OsCall.close fd]⟩

/-- `hs_time_set_system_time_from_hardware_clock` (lines 519-553). -/
def hs_time_set_system_time_from_hardware_clock (os : Os) (device : Option (List Char)) :
    Outcome Unit :=
  match device with
  | none => ⟨-1, (), []⟩
  | some dev =>
    let fd := os.open_rdwr dev
    let tr1 := [OsCall.open_rdwr dev]
    if fd < 0 then ⟨-2, (), tr1⟩
    else
      let rd := os.ioctl_rd_time fd
      let tr2 := tr1 ++ [OsCall.ioctl_rd_time fd]
      if rd.1 = -1 then ⟨-3, (), tr2 ++ [OsCall.close fd]⟩
      else
        let tr3 := tr2 ++ [OsCall.close fd]
        let c := hs_time_rtc_time_to_date_time (some hs_date_time.zero) (some rd.2)
        if c.1 ≠ 0 then ⟨-4, (), tr3⟩
        else
          let local_time := c.2.getD hs_date_time.zero
          let s := hs_time_set_local_time os (some local_time)
          if s.ret ≠ 0 then ⟨-5, (), tr3 ++ s.trace⟩
          else ⟨0, (), tr3 ++ s.trace⟩

/-! ## String helpers of the C library -/

/-- The terminating NUL byte. -/
def NUL : Char := Char.ofNat 0

/-- What `printf` produces for `%d` with a minimum field width: `%0<w>d` when
`zero_pad` is set (zeros between sign and digits), `%<w>d` otherwise (blanks on
the left). -/
def fmt_d (zero_pad : Bool) (width : Nat) (v : Int) : List Char :=
  let digits := Nat.toDigits 10 v.natAbs
  let sign := if v < 0 then ['-'] else []
  let fill := width - (sign.length + digits.length)
  if zero_pad then sign ++ List.replicate fill '0' ++ digits
  else List.replicate fill (Char.ofNat 32) ++ sign ++ digits

/-- The effect of `snprintf(buf, len, ...)` on a buffer holding `buf`, where `s` is
the formatted text: at most `len - 1` characters of `s` and a NUL are stored,
nothing when `len` is 0. -/
def snprintf (buf : List Char) (len : Nat) (s : List Char) : List Char :=
  if len = 0 then buf
  else
    let w := s.take (len - 1) ++ [NUL]
    w ++ buf.drop w.length

/-- `strstr(hay, needle)` on NUL-free texts: the suffix of `hay` that starts at the
first occurrence of `needle`, `none` for `NULL`. -/
def strstr (hay needle : List Char) : Option (List Char) :=
  match hay with
  | [] => if needle = [] then some [] else none
  | c :: cs => if needle.isPrefixOf (c :: cs) then some (c :: cs) else strstr cs needle

/-- The table `month[12][4]` of line 168. -/
def month_table : List (List Char) :=
  ["Jan", "Feb", "Mar", "Apr", "May", "Jun", "Jul", "Aug", "Sep", "Oct", "Nov", "Dec"].map
    String.toList

/-- The loop of lines 185-193: the 1-based index of the first table entry whose
three characters `strncmp` finds equal to the start of `month_str`, 0 when there
is none. -/
def month_lookup (month_str : List Char) : Int :=
  match month_table.indexOf? (month_str.take 3) with
  | some i => (i : Int) + 1
  | none => 0

/-- The values the two `sscanf` calls of lines 182-183 extract from the compiler's
`__DATE__` and `__TIME__` texts. -/
structure compile_stamp where
  month_str : List Char
  day : Int
  year : Int
  hour : Int
  min : Int
  sec : Int

/-! ## Buffer and timezone operations (hs_time.c, lines 156-336) -/

/-- `hs_time_get_compile_date_time` (lines 156-198). `stamp` stands for what
`sscanf` reads out of `__DATE__` and `__TIME__`. The buffer is `none` for a `NULL`
pointer, else its bytes. -/
def hs_time_get_compile_date_time (stamp : compile_stamp) (date_time : Option (List Char))
    (len : Nat) : Outcome (Option (List Char)) :=
  match date_time with
  | none => ⟨-1, none, []⟩
  | some buf =>
    if len ≤ 0 then ⟨-2, some buf, []⟩
    else
      let mon := month_lookup stamp.month_str
      let text := fmt_d true 4 stamp.year ++ ['-'] ++ fmt_d true 2 mon ++ ['-'] ++
        fmt_d true 2 stamp.day ++ [Char.ofNat 32] ++ fmt_d true 2 stamp.hour ++ [':'] ++
        fmt_d true 2 stamp.min ++ [':'] ++ fmt_d true 2 stamp.sec
      ⟨0, some (snprintf buf len text), []⟩

/-- `hs_time_get_system_timezone` (lines 200-239). -/
def hs_time_get_system_timezone (os : Os) (timezone : Option (List Char)) (len : Nat) :
    Outcome (Option (List Char)) :=
  match timezone with
  | none => ⟨-1, none, []⟩
  | some buf =>
    if len ≤ 0 then ⟨-2, some buf, []⟩
    else
      let tr1 := [OsCall.readlink "/etc/localtime".toList]
      match os.readlink "/etc/localtime".toList with
      | none => ⟨-3, some buf, tr1⟩
      | some bytes =>
        let link := bytes.takeWhile (fun c => c ≠ NUL)
        match strstr link "zoneinfo/".toList with
        | none => ⟨-4, some buf, tr1⟩
        | some found =>
          let timezone_start := found.drop "zoneinfo/".length
          let timezone_len := timezone_start.length
          if timezone_len ≥ len then ⟨-5, some buf, tr1⟩
          else
            ⟨0, some (timezone_start ++ List.replicate (len - timezone_len) NUL ++ buf.drop len),
              tr1⟩

/-- `hs_time_set_system_timezone` (lines 241-274). `ENOENT` is 2. -/
def hs_time_set_system_timezone (os : Os) (timezone : Option (List Char)) : Outcome Unit :=
  match timezone with
  | none => ⟨-1, (), []⟩
  | some tz =>
    let zoneinfo_path := ("/usr/share/zoneinfo/".toList ++ tz).take 4095
    let tr1 := [OsCall.access zoneinfo_path]
    if os.access zoneinfo_path ≠ 0 then ⟨-2, (), tr1⟩
    else
      let u := os.unlink "/etc/localtime".toList
      let tr2 := tr1 ++ [OsCall.unlink "/etc/localtime".toList]
      if u.1 ≠ 0 ∧ u.2 ≠ 2 then ⟨-3, (), tr2⟩
      else
        let tr3 := tr2 ++ [OsCall.symlink zoneinfo_path "/etc/localtime".toList]
        if os.symlink zoneinfo_path "/etc/localtime".toList ≠ 0 then ⟨-4, (), tr3⟩
        else ⟨0, (), tr3 ++ [OsCall.tzset]⟩

/-- `hs_time_get_date_time_str` (lines 276-336). `gap_flag` is a `uint8_t`. -/
def hs_time_get_date_time_str (os : Os) (date_time : Option (List Char)) (len : Nat)
    (gap_flag : Nat) : Outcome (Option (List Char)) :=
  match date_time with
  | none => ⟨-1, none, []⟩
  | some buf =>
    if len ≤ 0 then ⟨-2, some buf, []⟩
    else
      let cg := os.clock_gettime clockid.CLOCK_REALTIME
      let tr1 := [OsCall.clock_gettime clockid.CLOCK_REALTIME]
      if cg.1 = -1 then ⟨-3, some buf, tr1⟩
      else
        let tr2 := tr1 ++ [OsCall.localtime_r cg.2.tv_sec]
        match os.localtime_r cg.2.tv_sec with
        | none => ⟨-4, some buf, tr2⟩
        | some local_time =>
          let year := fmt_d false 4 (local_time.tm_year + 1900)
          let mon := fmt_d true 2 (local_time.tm_mon + 1)
          let mday := fmt_d true 2 local_time.tm_mday
          let hour := fmt_d true 2 local_time.tm_hour
          let min := fmt_d true 2 local_time.tm_min
          let sec := fmt_d true 2 local_time.tm_sec
          let usec := fmt_d true 6 (Int.tdiv cg.2.tv_nsec 1000)
          match gap_flag with
          | 0 =>
            ⟨0, some (snprintf buf len (year ++ mon ++ mday ++ hour ++ min ++ sec ++ usec)), tr2⟩
          | 1 =>
            ⟨0, some (snprintf buf len (year ++ ['-'] ++ mon ++ ['-'] ++ mday ++ [Char.ofNat 32] ++
              hour ++ [':'] ++ min ++ [':'] ++ sec ++ ['.'] ++ usec)), tr2⟩
          | 2 =>
            ⟨0, some (snprintf buf len (year ++ ['-'] ++ mon ++ ['-'] ++ mday ++ ['_'] ++
              hour ++ ['-'] ++ min ++ ['-'] ++ sec ++ ['-'] ++ usec)), tr2⟩
          | _ => ⟨-5, some buf, tr2⟩

/-! ## A fixed time zone: the C library routines for UTC

`localtime_r` and `mktime` belong to the C library, not to this module. For the
Unix round trip they are given here for a system whose zone is UTC, with the
proleptic Gregorian calendar computed by the usual era/day-of-era arithmetic
(eras of 400 years that start on 1 March). -/

/-- Days from 1970-01-01 to the civil date `y`-`m`-`d` (`m` in 1..12). -/
def days_from_civil (y m d : Int) : Int :=
  let y1 := if m ≤ 2 then y - 1 else y
  let era := y1 / 400
  let yoe := y1 - era * 400
  let mp := if m > 2 then m - 3 else m + 9
  let doy := (153 * mp + 2) / 5 + d - 1
  let doe := yoe * 365 + yoe / 4 - yoe / 100 + doy
  era * 146097 + doe - 719468

/-- The year of the era (0..399) of a day of the era (0..146096). -/
def year_of_era (doe : Int) : Int :=
  (doe - doe / 1460 + doe / 36524 - doe / 146096) / 365

/-- The civil date (year, month 1..12, day 1..31) of a day count from
1970-01-01. -/
def civil_from_days (z : Int) : Int × Int × Int :=
  let era := (z + 719468) / 146097
  let doe := (z + 719468) - era * 146097
  let yoe := year_of_era doe
  let doy := doe - (365 * yoe + yoe / 4 - yoe / 100)
  let mp := (5 * doy + 2) / 153
  let d := doy - (153 * mp + 2) / 5 + 1
  let m := if mp < 10 then mp + 3 else mp - 9
  (if m ≤ 2 then yoe + era * 400 + 1 else yoe + era * 400, m, d)

/-- `localtime_r` under UTC: the broken-down time of `t` seconds after the epoch,
`NULL` when the year does not fit `int`. Weekday 0 is Sunday (the epoch was a
Thursday), `tm_yday` counts from 1 January, `tm_isdst` is 0. -/
def utc_localtime_r (t : Int) : Option tm :=
  let days := t / 86400
  let rem := t % 86400
  let ymd := civil_from_days days
  if int_range (ymd.1 - 1900) then
    some { tm_sec := rem % 60
           tm_min := rem / 60 % 60
           tm_hour := rem / 3600
           tm_mday := ymd.2.2
           tm_mon := ymd.2.1 - 1
           tm_year := ymd.1 - 1900
           tm_wday := (days + 4) % 7
           tm_yday := days - days_from_civil ymd.1 1 1
           tm_isdst := 0 }
  else none

/-- `mktime` under UTC: months outside 0..11 carry into the year, the other fields
are added up without range restriction, `tm_wday` and `tm_yday` are ignored, and
the result is -1 when it does not fit `time_t`. -/
def utc_mktime (t : tm) : Int :=
  let y := t.tm_year + 1900 + t.tm_mon / 12
  let m := t.tm_mon % 12 + 1
  let days := days_from_civil y m 1 + (t.tm_mday - 1)
  let r := days * 86400 + t.tm_hour * 3600 + t.tm_min * 60 + t.tm_sec
  if -9223372036854775808 ≤ r ∧ r ≤ 9223372036854775807 then r else -1

/-- An operating system whose zone is UTC: `localtime_r` and `mktime` are the UTC
routines, every other primitive is that of `os`. -/
def utc_os (os : Os) : Os :=
  { os with localtime_r := utc_localtime_r, mktime := utc_mktime }

/-- An operating system in which every primitive succeeds, with a device that
holds `r`; used to evaluate the operations on concrete inputs. -/
def demo_os (now : timespec) (r : rtc_time) : Os :=
  { clock_gettime := fun _ => (0, now)
    localtime_r := utc_localtime_r
    mktime := utc_mktime
    clock_settime := fun _ _ => 0
    open_rdwr := fun _ => 3
    ioctl_set_time := fun _ _ => 0
    ioctl_rd_time := fun _ => (0, r)
    readlink := fun _ => some "/usr/share/zoneinfo/Asia/Shanghai".toList
    access := fun _ => 0
    unlink := fun _ => (0, 0)
    symlink := fun _ _ => 0 }

/-! ## Properties of call traces -/

/-- Whether the operating system answers a call with a failure, by the test the
module applies to that primitive's result (`== -1`, `== NULL`, `< 0`, `!= 0`).
The results of `close` and `tzset` are never tested. -/
def call_failed (os : Os) : OsCall → Bool
  | .clock_gettime clk => decide ((os.clock_gettime clk).1 = -1)
  | .localtime_r t => (os.localtime_r t).isNone
  | .mktime t => decide (os.mktime t = -1)
  | .clock_settime clk ts => decide (os.clock_settime clk ts = -1)
  | .open_rdwr path => decide (os.open_rdwr path < 0)
  | .ioctl_set_time fd r => decide (os.ioctl_set_time fd r = -1)
  | .ioctl_rd_time fd => decide ((os.ioctl_rd_time fd).1 = -1)
  | .close _ => false
  | .readlink path => (os.readlink path).isNone
  | .access path => decide (os.access path ≠ 0)
  | .unlink path => decide ((os.unlink path).1 ≠ 0 ∧ (os.unlink path).2 ≠ 2)
  | .symlink target linkpath => decide (os.symlink target linkpath ≠ 0)
  | .tzset => false

/-- The calls that release a descriptor. -/
def is_close : OsCall → Bool
  | .close _ => true
  | _ => false

/-- The calls that touch the RTC device: opening it, the two ioctls, closing. -/
def is_device_call : OsCall → Bool
  | .open_rdwr _ => true
  | .ioctl_set_time _ _ => true
  | .ioctl_rd_time _ => true
  | .close _ => true
  | _ => false

/-- The calls that resolve or write the system clock: `mktime`, `clock_settime`. -/
def is_clock_write : OsCall → Bool
  | .mktime _ => true
  | .clock_settime _ _ => true
  | _ => false

/-- A trace aborts on the first failure: after the first call that fails, only
`close` calls follow. -/
def aborts_on_first_failure (os : Os) : List OsCall → Bool
  | [] => true
  | c :: rest =>
    if call_failed os c then rest.all is_close else aborts_on_first_failure os rest

/-! ## Theorems -/

/-! ### The model on concrete inputs -/

theorem utc_localtime_r_epoch :
    utc_localtime_r 0 = some ⟨0, 0, 0, 1, 0, 70, 4, 0, 0⟩ := by decide

theorem utc_localtime_r_2023 :
    utc_localtime_r 1700000000 = some ⟨20, 13, 22, 14, 10, 123, 2, 317, 0⟩ := by decide

theorem utc_localtime_r_2038 :
    utc_localtime_r 2147483647 = some ⟨7, 14, 3, 19, 0, 138, 2, 18, 0⟩ := by decide

theorem utc_localtime_r_leap_day :
    utc_localtime_r 951782400 = some ⟨0, 0, 0, 29, 1, 100, 2, 59, 0⟩ := by decide

theorem utc_mktime_2023 :
    utc_mktime ⟨20, 13, 22, 14, 10, 123, 0, 0, 0⟩ = 1700000000 := by decide

theorem get_date_time_str_dashed :
    (hs_time_get_date_time_str (demo_os ⟨1709626029, 123456789⟩ rtc_time.zero)
      (some (List.replicate 32 'x')) 32 1).out
      = some ("2024-03-05 08:07:09.123456".toList ++ [NUL] ++ List.replicate 5 'x') := by
  decide

theorem get_system_timezone_shanghai :
    (hs_time_get_system_timezone (demo_os ⟨0, 0⟩ rtc_time.zero)
      (some (List.replicate 16 'x')) 16).out
      = some ("Asia/Shanghai".toList ++ List.replicate 3 NUL) := by decide

theorem get_compile_date_time_sample :
    (hs_time_get_compile_date_time ⟨"Feb".toList, 1, 2026, 14, 29, 36⟩
      (some (List.replicate 20 'x')) 20).out
      = some ("2026-02-01 14:29:36".toList ++ [NUL]) := by decide

theorem set_hardware_clock_trace_sample :
    (hs_time_set_hardware_clock_from_system_time (demo_os ⟨1700000000, 0⟩ rtc_time.zero)
      (some "/dev/rtc0".toList)).trace
      = [OsCall.clock_gettime clockid.CLOCK_REALTIME, OsCall.localtime_r 1700000000,
          OsCall.open_rdwr "/dev/rtc0".toList,
          OsCall.ioctl_set_time 3 ⟨20, 13, 22, 14, 10, 123, 2, 317, 0⟩, OsCall.close 3] := by
  decide

theorem set_system_time_failed_read_sample :
    (hs_time_set_system_time_from_hardware_clock
      { demo_os ⟨0, 0⟩ rtc_time.zero with ioctl_rd_time := fun _ => (-1, rtc_time.zero) }
      (some "/dev/rtc0".toList)).ret = -3 ∧
    (hs_time_set_system_time_from_hardware_clock
      { demo_os ⟨0, 0⟩ rtc_time.zero with ioctl_rd_time := fun _ => (-1, rtc_time.zero) }
      (some "/dev/rtc0".toList)).trace
      = [OsCall.open_rdwr "/dev/rtc0".toList, OsCall.ioctl_rd_time 3, OsCall.close 3] := by
  decide

theorem aborts_on_first_failure_rejects :
    aborts_on_first_failure
      { demo_os ⟨0, 0⟩ rtc_time.zero with open_rdwr := fun _ => -1 }
      [OsCall.open_rdwr "/dev/rtc0".toList, OsCall.ioctl_rd_time (-1)] = false := by
  decide

/-! ### Integer conversions -/

theorem to_uint8_natCast (n : Nat) (h : n < 256) : to_uint8 (n : Int) = n := by
  unfold to_uint8; omega

theorem to_uint16_natCast (n : Nat) (h : n < 65536) : to_uint16 (n : Int) = n := by
  unfold to_uint16; omega

theorem to_uint8_sub_add (n : Nat) (h : n < 256) : to_uint8 ((n : Int) - 1 + 1) = n := by
  unfold to_uint8; omega

theorem to_uint16_sub_add (n : Nat) (k : Int) (h : n < 65536) :
    to_uint16 ((n : Int) - k + k) = n := by
  unfold to_uint16; omega

theorem to_uint8_lt (x : Int) : to_uint8 x < 256 := by
  unfold to_uint8; omega

theorem to_uint16_lt (x : Int) : to_uint16 x < 65536 := by
  unfold to_uint16; omega

/-! ### The converters on the whole representable domain -/

/-- The civil pair returns the input with weekday 0 replaced by 7, whatever the
other fields are. -/
theorem civil_pair_eq (st : tm) (d0 d : hs_date_time) (hrep : d.representable) :
    hs_time_tm_to_date_time (some d0) (hs_time_date_time_to_tm (some st) (some d)).2
      = (0, some { d with tm_wday := if d.tm_wday = 0 then 7 else d.tm_wday }) := by
  obtain ⟨year, mon, mday, hour, min, sec, yday, wday⟩ := d
  obtain ⟨h1, h2, h3, h4, h5, h6, h7, h8⟩ := hrep
  simp only at h1 h2 h3 h4 h5 h6 h7 h8
  simp only [hs_time_date_time_to_tm, hs_time_tm_to_date_time, Prod.mk.injEq, Option.some.injEq,
    hs_date_time.mk.injEq, true_and]
  refine ⟨to_uint16_sub_add year 1900 h1, to_uint8_sub_add mon h2, to_uint8_natCast mday h3,
    to_uint8_natCast hour h4, to_uint8_natCast min h5, to_uint8_natCast sec h6,
    to_uint16_sub_add yday 1 h7, ?_⟩
  by_cases h70 : wday = 7
  · subst h70; simp
  · by_cases h00 : wday = 0
    · subst h00; simp
    · have hne : ¬ ((wday : Int) = 0) := by omega
      simp only [h70, h00, hne, if_false]
      exact to_uint8_natCast wday h8

/-- The RTC pair does the same. -/
theorem rtc_pair_eq (r : rtc_time) (d0 d : hs_date_time) (hrep : d.representable) :
    hs_time_rtc_time_to_date_time (some d0) (hs_time_date_time_to_rtc_time (some r) (some d)).2
      = (0, some { d with tm_wday := if d.tm_wday = 0 then 7 else d.tm_wday }) := by
  obtain ⟨year, mon, mday, hour, min, sec, yday, wday⟩ := d
  obtain ⟨h1, h2, h3, h4, h5, h6, h7, h8⟩ := hrep
  simp only at h1 h2 h3 h4 h5 h6 h7 h8
  simp only [hs_time_date_time_to_rtc_time, hs_time_rtc_time_to_date_time, Prod.mk.injEq,
    Option.some.injEq, hs_date_time.mk.injEq, true_and]
  refine ⟨to_uint16_sub_add year 1900 h1, to_uint8_sub_add mon h2, to_uint8_natCast mday h3,
    to_uint8_natCast hour h4, to_uint8_natCast min h5, to_uint8_natCast sec h6,
    to_uint16_sub_add yday 1 h7, ?_⟩
  by_cases h70 : wday = 7
  · subst h70; simp
  · by_cases h00 : wday = 0
    · subst h00; simp
    · have hne : ¬ ((wday : Int) = 0) := by omega
      simp only [h70, h00, hne, if_false]
      exact to_uint8_natCast wday h8

theorem wday_fix_eq_iff (d : hs_date_time) :
    ({ d with tm_wday := if d.tm_wday = 0 then 7 else d.tm_wday } : hs_date_time) = d
      ↔ d.tm_wday ≠ 0 := by
  obtain ⟨year, mon, mday, hour, min, sec, yday, wday⟩ := d
  simp only [hs_date_time.mk.injEq, true_and]
  by_cases h : wday = 0
  · subst h; simp
  · simp [h]

theorem civil_round_trip_eq (st : tm) (d : hs_date_time) (hrep : d.representable) :
    civil_round_trip st d = { d with tm_wday := if d.tm_wday = 0 then 7 else d.tm_wday } := by
  unfold civil_round_trip
  rw [civil_pair_eq st d d hrep]
  rfl

theorem rtc_round_trip_eq (r : rtc_time) (d : hs_date_time) (hrep : d.representable) :
    rtc_round_trip r d = { d with tm_wday := if d.tm_wday = 0 then 7 else d.tm_wday } := by
  unfold rtc_round_trip
  rw [rtc_pair_eq r d d hrep]
  rfl

theorem documented_representable (d : hs_date_time) (h : d.documented) : d.representable := by
  unfold hs_date_time.documented at h
  unfold hs_date_time.representable
  omega

/-! ### Round trips through the civil record -/

/-- C1: for a calendar value whose month, day, hour, minute and second lie in the
documented ranges, whose weekday is in 1..7 (1..6 and the boundary 7) and whose
day of year is at least 1 (above 1 and the boundary 1), `hs_time_date_time_to_tm`
succeeds, `hs_time_tm_to_date_time` of its result succeeds and returns the value in
every field; weekday 7 is civil weekday 0 in between, day of year 1 is civil 0 in
between, and any number `n ≥ 1` of round trips returns the value. -/
theorem civil_round_trip_identity (st : tm) (d0 d : hs_date_time)
    (hyear : d.tm_year < 65536) (hmon : 1 ≤ d.tm_mon ∧ d.tm_mon ≤ 12)
    (hmday : 1 ≤ d.tm_mday ∧ d.tm_mday ≤ 31) (hhour : d.tm_hour ≤ 23)
    (hmin : d.tm_min ≤ 59) (hsec : d.tm_sec ≤ 59)
    (hyday : 1 ≤ d.tm_yday ∧ d.tm_yday < 65536)
    (hwday : 1 ≤ d.tm_wday ∧ d.tm_wday ≤ 7) :
    (hs_time_date_time_to_tm (some st) (some d)).1 = 0 ∧
    hs_time_tm_to_date_time (some d0) (hs_time_date_time_to_tm (some st) (some d)).2
      = (0, some d) ∧
    (d.tm_wday = 7 →
      (hs_time_date_time_to_tm (some st) (some d)).2.map (fun t => t.tm_wday) = some 0) ∧
    (d.tm_yday = 1 →
      (hs_time_date_time_to_tm (some st) (some d)).2.map (fun t => t.tm_yday) = some 0) ∧
    ∀ n : Nat, 1 ≤ n → Nat.iterate (civil_round_trip st) n d = d := by
  have hrep : d.representable := by
    unfold hs_date_time.representable; omega
  have hw : d.tm_wday ≠ 0 := by omega
  refine ⟨rfl, ?_, ?_, ?_, ?_⟩
  · rw [civil_pair_eq st d0 d hrep, (wday_fix_eq_iff d).mpr hw]
  · intro h7
    simp [hs_time_date_time_to_tm, h7]
  · intro h1
    simp [hs_time_date_time_to_tm, h1]
  · intro n _
    have hfix : civil_round_trip st d = d := by
      rw [civil_round_trip_eq st d hrep, (wday_fix_eq_iff d).mpr hw]
    exact Function.iterate_fixed hfix n

/-- C1 at Sunday 1 January 2023 (weekday 7, day of year 1): three round trips. -/
theorem civil_round_trip_identity_witness :
    Nat.iterate (civil_round_trip tm.zero) 3 ⟨2023, 1, 1, 0, 0, 0, 1, 7⟩
      = ⟨2023, 1, 1, 0, 0, 0, 1, 7⟩ :=
  (civil_round_trip_identity tm.zero hs_date_time.zero ⟨2023, 1, 1, 0, 0, 0, 1, 7⟩
    (by decide) (by decide) (by decide) (by decide) (by decide) (by decide) (by decide)
    (by decide)).2.2.2.2 3 (by decide)

/-- C10: on the whole representable domain the civil pair returns the original
value exactly when its weekday is not 0; for weekday 0 the result has weekday 7
and agrees in every other field, for every other weekday (1..255) the result is
the original value, also for a year below 1900, month 0 and day of year 0. The RTC
pair behaves the same. -/
theorem round_trip_iff_wday_nonzero (st : tm) (r : rtc_time) (d0 d : hs_date_time)
    (hrep : d.representable) :
    (hs_time_tm_to_date_time (some d0) (hs_time_date_time_to_tm (some st) (some d)).2
        = (0, some d) ↔ d.tm_wday ≠ 0) ∧
    (d.tm_wday = 0 →
      hs_time_tm_to_date_time (some d0) (hs_time_date_time_to_tm (some st) (some d)).2
        = (0, some { d with tm_wday := 7 })) ∧
    (hs_time_rtc_time_to_date_time (some d0) (hs_time_date_time_to_rtc_time (some r) (some d)).2
        = (0, some d) ↔ d.tm_wday ≠ 0) ∧
    (d.tm_wday = 0 →
      hs_time_rtc_time_to_date_time (some d0)
          (hs_time_date_time_to_rtc_time (some r) (some d)).2
        = (0, some { d with tm_wday := 7 })) := by
  rw [civil_pair_eq st d0 d hrep, rtc_pair_eq r d0 d hrep]
  refine ⟨?_, ?_, ?_, ?_⟩
  · simp only [Prod.mk.injEq, Option.some.injEq, true_and]
    exact wday_fix_eq_iff d
  · intro h0; simp [h0]
  · simp only [Prod.mk.injEq, Option.some.injEq, true_and]
    exact wday_fix_eq_iff d
  · intro h0; simp [h0]

/-- C10 at the all-zero value (year 0, month 0, day of year 0, weekday 0): the
civil pair changes it, and only in the weekday. -/
theorem round_trip_iff_wday_nonzero_witness :
    hs_time_tm_to_date_time (some hs_date_time.zero)
        (hs_time_date_time_to_tm (some tm.zero) (some ⟨0, 0, 0, 0, 0, 0, 0, 0⟩)).2
      = (0, some ⟨0, 0, 0, 0, 0, 0, 0, 7⟩) :=
  (round_trip_iff_wday_nonzero tm.zero rtc_time.zero hs_date_time.zero ⟨0, 0, 0, 0, 0, 0, 0, 0⟩
    (by decide)).2.1 rfl

/-! ### The field maps -/

/-- C2: for every representable calendar value, `hs_time_date_time_to_tm` and
`hs_time_date_time_to_rtc_time` return 0 and write the same eight fields: year
minus 1900, month minus 1 and day of year minus 1 as signed differences that lie
in the range of `int`, day, hour, minute and second unchanged, and weekday 0 for
7 and the weekday itself otherwise. -/
theorem date_time_to_native_fields (st : tm) (r : rtc_time) (c : hs_date_time)
    (hrep : c.representable) :
    hs_time_date_time_to_tm (some st) (some c)
      = (0, some ⟨c.tm_sec, c.tm_min, c.tm_hour, c.tm_mday, (c.tm_mon : Int) - 1,
          (c.tm_year : Int) - 1900, if c.tm_wday = 7 then 0 else (c.tm_wday : Int),
          (c.tm_yday : Int) - 1, st.tm_isdst⟩) ∧
    hs_time_date_time_to_rtc_time (some r) (some c)
      = (0, some ⟨c.tm_sec, c.tm_min, c.tm_hour, c.tm_mday, (c.tm_mon : Int) - 1,
          (c.tm_year : Int) - 1900, if c.tm_wday = 7 then 0 else (c.tm_wday : Int),
          (c.tm_yday : Int) - 1, r.tm_isdst⟩) ∧
    int_range ((c.tm_year : Int) - 1900) ∧ int_range ((c.tm_mon : Int) - 1) ∧
    int_range ((c.tm_yday : Int) - 1) := by
  obtain ⟨h1, h2, h3, h4, h5, h6, h7, h8⟩ := hrep
  refine ⟨rfl, rfl, ?_, ?_, ?_⟩ <;> unfold int_range <;> omega

/-- C2 at the all-zero value: year 0 gives -1900, month 0 gives -1, day of year 0
gives -1. -/
theorem date_time_to_native_fields_witness :
    hs_time_date_time_to_tm (some tm.zero) (some ⟨0, 0, 0, 0, 0, 0, 0, 0⟩)
      = (0, some ⟨0, 0, 0, 0, -1, -1900, 0, -1, 0⟩) :=
  (date_time_to_native_fields tm.zero rtc_time.zero ⟨0, 0, 0, 0, 0, 0, 0, 0⟩ (by decide)).1

/-- C3: for a civil record and an RTC record in the native ranges,
`hs_time_tm_to_date_time` and `hs_time_rtc_time_to_date_time` return 0 and produce
a calendar value in the documented ranges with year = offset + 1900, month =
native month + 1, day of year = native + 1, weekday 7 for native 0 and the native
weekday otherwise, and day, hour, minute and second unchanged. -/
theorem native_to_date_time_documented (d0 : hs_date_time) (t : tm) (r : rtc_time)
    (ht : t.native_range) (hr : r.native_range) :
    (∃ d : hs_date_time, hs_time_tm_to_date_time (some d0) (some t) = (0, some d) ∧
      d.documented ∧ (d.tm_year : Int) = t.tm_year + 1900 ∧ (d.tm_mon : Int) = t.tm_mon + 1 ∧
      (d.tm_yday : Int) = t.tm_yday + 1 ∧
      (d.tm_wday : Int) = (if t.tm_wday = 0 then 7 else t.tm_wday) ∧
      (d.tm_mday : Int) = t.tm_mday ∧ (d.tm_hour : Int) = t.tm_hour ∧
      (d.tm_min : Int) = t.tm_min ∧ (d.tm_sec : Int) = t.tm_sec) ∧
    (∃ d : hs_date_time, hs_time_rtc_time_to_date_time (some d0) (some r) = (0, some d) ∧
      d.documented ∧ (d.tm_year : Int) = r.tm_year + 1900 ∧ (d.tm_mon : Int) = r.tm_mon + 1 ∧
      (d.tm_yday : Int) = r.tm_yday + 1 ∧
      (d.tm_wday : Int) = (if r.tm_wday = 0 then 7 else r.tm_wday) ∧
      (d.tm_mday : Int) = r.tm_mday ∧ (d.tm_hour : Int) = r.tm_hour ∧
      (d.tm_min : Int) = r.tm_min ∧ (d.tm_sec : Int) = r.tm_sec) := by
  obtain ⟨a1, a2, a3, a4, a5, a6, a7, a8⟩ := ht
  obtain ⟨b1, b2, b3, b4, b5, b6, b7, b8⟩ := hr
  constructor
  · refine ⟨_, rfl, ?_⟩
    by_cases hw : t.tm_wday = 0
    · simp only [hs_date_time.documented, to_uint8, to_uint16, hw, if_true]
      omega
    · simp only [hs_date_time.documented, to_uint8, to_uint16, hw, if_false]
      omega
  · refine ⟨_, rfl, ?_⟩
    by_cases hw : r.tm_wday = 0
    · simp only [hs_date_time.documented, to_uint8, to_uint16, hw, if_true]
      omega
    · simp only [hs_date_time.documented, to_uint8, to_uint16, hw, if_false]
      omega

/-- C3 at Sunday 1 January 2023 in native form (weekday 0, day of year 0). -/
theorem native_to_date_time_documented_witness :
    ∃ d : hs_date_time,
      hs_time_tm_to_date_time (some hs_date_time.zero) (some ⟨0, 0, 0, 1, 0, 123, 0, 0, 0⟩)
        = (0, some d) ∧
      d.documented ∧ (d.tm_year : Int) = (123 : Int) + 1900 ∧ (d.tm_mon : Int) = (0 : Int) + 1 ∧
      (d.tm_yday : Int) = (0 : Int) + 1 ∧
      (d.tm_wday : Int) = (if (0 : Int) = 0 then 7 else 0) ∧
      (d.tm_mday : Int) = 1 ∧ (d.tm_hour : Int) = 0 ∧
      (d.tm_min : Int) = 0 ∧ (d.tm_sec : Int) = 0 :=
  (native_to_date_time_documented hs_date_time.zero ⟨0, 0, 0, 1, 0, 123, 0, 0, 0⟩
    ⟨0, 0, 0, 1, 0, 123, 0, 0, 0⟩ (by decide) (by decide)).1

/-! ### Failure codes -/

/-- C4: each of the four converters returns -1 exactly when its output pointer is
null, -2 exactly when the output is non-null and the input is null, 0 exactly
when both are non-null, and leaves the output object as it was whenever it does
not return 0. So no public operation ever returns its conversion-failure code:
-4 of `hs_time_get_local_time`, -2 of `hs_time_set_local_time`, -3 of
`hs_time_convert_unix_to_local`, -3 of `hs_time_convert_local_to_unix`, -3 of
`hs_time_set_hardware_clock_from_system_time`, -4 of
`hs_time_set_system_time_from_hardware_clock`, for every input and every
behaviour of the operating system. -/
theorem converters_fail_iff_null :
    (∀ (o : Option tm) (i : Option hs_date_time),
      ((hs_time_date_time_to_tm o i).1 = -1 ↔ o = none) ∧
      ((hs_time_date_time_to_tm o i).1 = -2 ↔ o ≠ none ∧ i = none) ∧
      ((hs_time_date_time_to_tm o i).1 = 0 ↔ o ≠ none ∧ i ≠ none) ∧
      ((hs_time_date_time_to_tm o i).1 ≠ 0 → (hs_time_date_time_to_tm o i).2 = o)) ∧
    (∀ (o : Option hs_date_time) (i : Option tm),
      ((hs_time_tm_to_date_time o i).1 = -1 ↔ o = none) ∧
      ((hs_time_tm_to_date_time o i).1 = -2 ↔ o ≠ none ∧ i = none) ∧
      ((hs_time_tm_to_date_time o i).1 = 0 ↔ o ≠ none ∧ i ≠ none) ∧
      ((hs_time_tm_to_date_time o i).1 ≠ 0 → (hs_time_tm_to_date_time o i).2 = o)) ∧
    (∀ (o : Option rtc_time) (i : Option hs_date_time),
      ((hs_time_date_time_to_rtc_time o i).1 = -1 ↔ o = none) ∧
      ((hs_time_date_time_to_rtc_time o i).1 = -2 ↔ o ≠ none ∧ i = none) ∧
      ((hs_time_date_time_to_rtc_time o i).1 = 0 ↔ o ≠ none ∧ i ≠ none) ∧
      ((hs_time_date_time_to_rtc_time o i).1 ≠ 0 →
        (hs_time_date_time_to_rtc_time o i).2 = o)) ∧
    (∀ (o : Option hs_date_time) (i : Option rtc_time),
      ((hs_time_rtc_time_to_date_time o i).1 = -1 ↔ o = none) ∧
      ((hs_time_rtc_time_to_date_time o i).1 = -2 ↔ o ≠ none ∧ i = none) ∧
      ((hs_time_rtc_time_to_date_time o i).1 = 0 ↔ o ≠ none ∧ i ≠ none) ∧
      ((hs_time_rtc_time_to_date_time o i).1 ≠ 0 →
        (hs_time_rtc_time_to_date_time o i).2 = o)) ∧
    (∀ (os : Os) (local_time : Option hs_date_time),
      (hs_time_get_local_time os local_time).ret ≠ -4) ∧
    (∀ (os : Os) (local_time : Option hs_date_time),
      (hs_time_set_local_time os local_time).ret ≠ -2) ∧
    (∀ (os : Os) (local_time : Option hs_date_time) (unix_timestamp_s : Nat),
      (hs_time_convert_unix_to_local os local_time unix_timestamp_s).ret ≠ -3) ∧
    (∀ (os : Os) (unix_timestamp_s : Option Nat) (local_time : Option hs_date_time),
      (hs_time_convert_local_to_unix os unix_timestamp_s local_time).ret ≠ -3) ∧
    (∀ (os : Os) (device : Option (List Char)),
      (hs_time_set_hardware_clock_from_system_time os device).ret ≠ -3) ∧
    (∀ (os : Os) (device : Option (List Char)),
      (hs_time_set_system_time_from_hardware_clock os device).ret ≠ -4) := by
  refine ⟨?_, ?_, ?_, ?_, ?_, ?_, ?_, ?_, ?_, ?_⟩
  · intro o i
    cases o <;> cases i <;> simp [hs_time_date_time_to_tm]
  · intro o i
    cases o <;> cases i <;> simp [hs_time_tm_to_date_time]
  · intro o i
    cases o <;> cases i <;> simp [hs_time_date_time_to_rtc_time]
  · intro o i
    cases o <;> cases i <;> simp [hs_time_rtc_time_to_date_time]
  · intro os local_time
    cases local_time with
    | none => simp [hs_time_get_local_time]
    | some d =>
      simp only [hs_time_get_local_time]
      split_ifs
      · simp
      · cases os.localtime_r (os.clock_gettime clockid.CLOCK_REALTIME).2.tv_sec with
        | none => simp
        | some t => simp [hs_time_tm_to_date_time]
  · intro os local_time
    cases local_time with
    | none => simp [hs_time_set_local_time]
    | some d =>
      simp only [hs_time_set_local_time, hs_time_date_time_to_tm]
      split_ifs <;> simp_all
  · intro os local_time unix_timestamp_s
    cases local_time with
    | none => simp [hs_time_convert_unix_to_local]
    | some d =>
      simp only [hs_time_convert_unix_to_local]
      cases os.localtime_r (to_int64 unix_timestamp_s) with
      | none => simp
      | some t => simp [hs_time_tm_to_date_time]
  · intro os unix_timestamp_s local_time
    cases unix_timestamp_s with
    | none => simp [hs_time_convert_local_to_unix]
    | some u =>
      cases local_time with
      | none => simp [hs_time_convert_local_to_unix]
      | some d =>
        simp only [hs_time_convert_local_to_unix, hs_time_date_time_to_tm]
        split_ifs <;> simp_all
  · intro os device
    cases device with
    | none => simp [hs_time_set_hardware_clock_from_system_time]
    | some dev =>
      simp only [hs_time_set_hardware_clock_from_system_time, hs_time_date_time_to_rtc_time]
      split_ifs <;> simp_all
  · intro os device
    cases device with
    | none => simp [hs_time_set_system_time_from_hardware_clock]
    | some dev =>
      simp only [hs_time_set_system_time_from_hardware_clock, hs_time_rtc_time_to_date_time]
      split_ifs <;> simp_all

/-- C5: a null required pointer makes every public operation return its negative
code with an empty call trace and nothing written: -1 for the null pointer of
`hs_time_get_local_time`, `hs_time_set_local_time`,
`hs_time_get_current_timestamp_ms`, `hs_time_get_uptime_ms`,
`hs_time_convert_unix_to_local`, the two hardware-clock operations and
`hs_time_set_system_timezone`; `hs_time_convert_local_to_unix` returns -1 for a
null output and -2 for a null input, leaving `*unix_timestamp_s` as it was; the
three buffer operations return -1 for a null buffer and -2 for length 0, leaving
the buffer as it was. -/
theorem null_arguments_rejected (os : Os) (stamp : compile_stamp) (u : Nat)
    (lt : Option hs_date_time) (buf : List Char) (len gap_flag : Nat) :
    ((hs_time_get_local_time os none).ret = -1 ∧
      (hs_time_get_local_time os none).out = none ∧
      (hs_time_get_local_time os none).trace = []) ∧
    ((hs_time_set_local_time os none).ret = -1 ∧
      (hs_time_set_local_time os none).trace = []) ∧
    ((hs_time_get_current_timestamp_ms os none).ret = -1 ∧
      (hs_time_get_current_timestamp_ms os none).out = none ∧
      (hs_time_get_current_timestamp_ms os none).trace = []) ∧
    ((hs_time_get_uptime_ms os none).ret = -1 ∧
      (hs_time_get_uptime_ms os none).out = none ∧
      (hs_time_get_uptime_ms os none).trace = []) ∧
    ((hs_time_convert_unix_to_local os none u).ret = -1 ∧
      (hs_time_convert_unix_to_local os none u).out = none ∧
      (hs_time_convert_unix_to_local os none u).trace = []) ∧
    ((hs_time_set_hardware_clock_from_system_time os none).ret = -1 ∧
      (hs_time_set_hardware_clock_from_system_time os none).trace = []) ∧
    ((hs_time_set_system_time_from_hardware_clock os none).ret = -1 ∧
      (hs_time_set_system_time_from_hardware_clock os none).trace = []) ∧
    ((hs_time_set_system_timezone os none).ret = -1 ∧
      (hs_time_set_system_timezone os none).trace = []) ∧
    ((hs_time_convert_local_to_unix os none lt).ret = -1 ∧
      (hs_time_convert_local_to_unix os none lt).out = none ∧
      (hs_time_convert_local_to_unix os none lt).trace = []) ∧
    ((hs_time_convert_local_to_unix os (some u) none).ret = -2 ∧
      (hs_time_convert_local_to_unix os (some u) none).out = some u ∧
      (hs_time_convert_local_to_unix os (some u) none).trace = []) ∧
    ((hs_time_get_compile_date_time stamp none len).ret = -1 ∧
      (hs_time_get_compile_date_time stamp none len).out = none ∧
      (hs_time_get_compile_date_time stamp none len).trace = []) ∧
    ((hs_time_get_compile_date_time stamp (some buf) 0).ret = -2 ∧
      (hs_time_get_compile_date_time stamp (some buf) 0).out = some buf ∧
      (hs_time_get_compile_date_time stamp (some buf) 0).trace = []) ∧
    ((hs_time_get_system_timezone os none len).ret = -1 ∧
      (hs_time_get_system_timezone os none len).out = none ∧
      (hs_time_get_system_timezone os none len).trace = []) ∧
    ((hs_time_get_system_timezone os (some buf) 0).ret = -2 ∧
      (hs_time_get_system_timezone os (some buf) 0).out = some buf ∧
      (hs_time_get_system_timezone os (some buf) 0).trace = []) ∧
    ((hs_time_get_date_time_str os none len gap_flag).ret = -1 ∧
      (hs_time_get_date_time_str os none len gap_flag).out = none ∧
      (hs_time_get_date_time_str os none len gap_flag).trace = []) ∧
    ((hs_time_get_date_time_str os (some buf) 0 gap_flag).ret = -2 ∧
      (hs_time_get_date_time_str os (some buf) 0 gap_flag).out = some buf ∧
      (hs_time_get_date_time_str os (some buf) 0 gap_flag).trace = []) := by
  refine ⟨⟨rfl, rfl, rfl⟩, ⟨rfl, rfl⟩, ⟨rfl, rfl, rfl⟩, ⟨rfl, rfl, rfl⟩, ⟨rfl, rfl, rfl⟩,
    ⟨rfl, rfl⟩, ⟨rfl, rfl⟩, ⟨rfl, rfl⟩, ⟨rfl, rfl, rfl⟩, ⟨rfl, rfl, rfl⟩, ⟨rfl, rfl, rfl⟩,
    ⟨rfl, rfl, rfl⟩, ⟨rfl, rfl, rfl⟩, ⟨rfl, rfl, rfl⟩, ⟨rfl, rfl, rfl⟩, ⟨rfl, rfl, rfl⟩⟩

/-! ### Uptime -/

theorem timespec_to_ms_eq (s n : Int) (hn : 0 ≤ n) (hs : 0 ≤ s)
    (hb : s * 1000 ≤ 9223372036854775807) (hn2 : n < 1000000000) :
    (timespec_to_ms ⟨s, n⟩ : Int) = s * 1000 + n / 1000000 := by
  unfold timespec_to_ms to_uint64
  simp only
  rw [Int.tdiv_eq_ediv hn (by decide)]
  omega

/-- C8: when the monotonic clock read succeeds with the reading `(sec, nsec)`,
`hs_time_get_uptime_ms` returns 0 and reports `sec * 1000 + nsec / 1000000`; for
two readings with `0 ≤ nsec < 10^9`, `0 ≤ sec`, `sec * 1000` within signed 64
bits, the second not earlier than the first in lexicographic order, the value
reported for the first is at most the value reported for the second. -/
theorem uptime_monotone (os1 os2 : Os) (v1 v2 : Nat) (r1 r2 s1 n1 s2 n2 : Int)
    (hread1 : os1.clock_gettime clockid.CLOCK_MONOTONIC = (r1, ⟨s1, n1⟩)) (hr1 : r1 ≠ -1)
    (hread2 : os2.clock_gettime clockid.CLOCK_MONOTONIC = (r2, ⟨s2, n2⟩)) (hr2 : r2 ≠ -1)
    (hn1 : 0 ≤ n1 ∧ n1 < 1000000000) (hn2 : 0 ≤ n2 ∧ n2 < 1000000000)
    (hs1 : 0 ≤ s1 ∧ s1 * 1000 ≤ 9223372036854775807)
    (hs2 : 0 ≤ s2 ∧ s2 * 1000 ≤ 9223372036854775807)
    (hle : s1 < s2 ∨ (s1 = s2 ∧ n1 ≤ n2)) :
    ∃ u1 u2 : Nat,
      (hs_time_get_uptime_ms os1 (some v1)).ret = 0 ∧
      (hs_time_get_uptime_ms os1 (some v1)).out = some u1 ∧
      (u1 : Int) = s1 * 1000 + n1 / 1000000 ∧
      (hs_time_get_uptime_ms os2 (some v2)).ret = 0 ∧
      (hs_time_get_uptime_ms os2 (some v2)).out = some u2 ∧
      (u2 : Int) = s2 * 1000 + n2 / 1000000 ∧
      u1 ≤ u2 := by
  have e1 := timespec_to_ms_eq s1 n1 hn1.1 hs1.1 hs1.2 hn1.2
  have e2 := timespec_to_ms_eq s2 n2 hn2.1 hs2.1 hs2.2 hn2.2
  refine ⟨timespec_to_ms ⟨s1, n1⟩, timespec_to_ms ⟨s2, n2⟩, ?_, ?_, e1, ?_, ?_, e2, ?_⟩
  · simp [hs_time_get_uptime_ms, hread1, hr1]
  · simp [hs_time_get_uptime_ms, hread1, hr1]
  · simp [hs_time_get_uptime_ms, hread2, hr2]
  · simp [hs_time_get_uptime_ms, hread2, hr2]
  · have : (timespec_to_ms ⟨s1, n1⟩ : Int) ≤ (timespec_to_ms ⟨s2, n2⟩ : Int) := by
      rw [e1, e2]; omega
    exact_mod_cast this

/-- C8 at the readings (5 s, 999999999 ns) and (6 s, 0 ns): 5999 ms, then 6000 ms. -/
theorem uptime_monotone_witness :
    ∃ u1 u2 : Nat,
      (hs_time_get_uptime_ms (demo_os ⟨5, 999999999⟩ rtc_time.zero) (some 0)).ret = 0 ∧
      (hs_time_get_uptime_ms (demo_os ⟨5, 999999999⟩ rtc_time.zero) (some 0)).out = some u1 ∧
      (u1 : Int) = (5 : Int) * 1000 + (999999999 : Int) / 1000000 ∧
      (hs_time_get_uptime_ms (demo_os ⟨6, 0⟩ rtc_time.zero) (some 0)).ret = 0 ∧
      (hs_time_get_uptime_ms (demo_os ⟨6, 0⟩ rtc_time.zero) (some 0)).out = some u2 ∧
      (u2 : Int) = (6 : Int) * 1000 + (0 : Int) / 1000000 ∧
      u1 ≤ u2 :=
  uptime_monotone (demo_os ⟨5, 999999999⟩ rtc_time.zero) (demo_os ⟨6, 0⟩ rtc_time.zero) 0 0
    0 0 5 999999999 6 0 rfl (by decide) rfl (by decide) (by decide) (by decide) (by decide)
    (by decide) (by decide)

/-! ### Hardware clock operations -/

theorem date_time_to_tm_fst (st : tm) (d : hs_date_time) :
    (hs_time_date_time_to_tm (some st) (some d)).1 = 0 := rfl

theorem tm_to_date_time_fst (d : hs_date_time) (st : tm) :
    (hs_time_tm_to_date_time (some d) (some st)).1 = 0 := rfl

theorem date_time_to_rtc_time_fst (r : rtc_time) (d : hs_date_time) :
    (hs_time_date_time_to_rtc_time (some r) (some d)).1 = 0 := rfl

theorem rtc_time_to_date_time_fst (d : hs_date_time) (r : rtc_time) :
    (hs_time_rtc_time_to_date_time (some d) (some r)).1 = 0 := rfl

theorem rtc_time_to_date_time_snd (d d1 : hs_date_time) (r : rtc_time) :
    some ((hs_time_rtc_time_to_date_time (some d) (some r)).2.getD d1)
      = (hs_time_rtc_time_to_date_time (some d) (some r)).2 := rfl

theorem get_local_time_trace (os : Os) (d : hs_date_time) :
    (hs_time_get_local_time os (some d)).trace
      = OsCall.clock_gettime clockid.CLOCK_REALTIME ::
        (if (os.clock_gettime clockid.CLOCK_REALTIME).1 = -1 then []
         else [OsCall.localtime_r (os.clock_gettime clockid.CLOCK_REALTIME).2.tv_sec]) := by
  simp only [hs_time_get_local_time]
  by_cases h : (os.clock_gettime clockid.CLOCK_REALTIME).1 = -1
  · simp only [h, if_true]
  · simp only [h, if_false]
    cases os.localtime_r (os.clock_gettime clockid.CLOCK_REALTIME).2.tv_sec with
    | none => rfl
    | some t => simp [tm_to_date_time_fst]

theorem get_local_time_ret (os : Os) (d : hs_date_time) :
    (hs_time_get_local_time os (some d)).ret
      = (if (os.clock_gettime clockid.CLOCK_REALTIME).1 = -1 then -2
         else if (os.localtime_r (os.clock_gettime clockid.CLOCK_REALTIME).2.tv_sec).isNone
           then -3 else 0) := by
  simp only [hs_time_get_local_time]
  by_cases h : (os.clock_gettime clockid.CLOCK_REALTIME).1 = -1
  · simp only [h, if_true]
  · simp only [h, if_false]
    cases os.localtime_r (os.clock_gettime clockid.CLOCK_REALTIME).2.tv_sec with
    | none => rfl
    | some t => simp [tm_to_date_time_fst]

theorem set_local_time_trace (os : Os) (d : hs_date_time) :
    (hs_time_set_local_time os (some d)).trace
      = OsCall.mktime { (hs_time_date_time_to_tm (some tm.zero) (some d)).2.getD tm.zero with
          tm_isdst := -1 } ::
        (if os.mktime { (hs_time_date_time_to_tm (some tm.zero) (some d)).2.getD tm.zero with
            tm_isdst := -1 } = -1 then []
         else [OsCall.clock_settime clockid.CLOCK_REALTIME
           ⟨os.mktime { (hs_time_date_time_to_tm (some tm.zero) (some d)).2.getD tm.zero with
             tm_isdst := -1 }, 0⟩]) := by
  simp only [hs_time_set_local_time, date_time_to_tm_fst]
  split_ifs <;> first | rfl | simp_all

theorem set_local_time_closes (os : Os) (lt : Option hs_date_time) :
    (hs_time_set_local_time os lt).trace.filter is_close = [] := by
  cases lt with
  | none => rfl
  | some d =>
    rw [set_local_time_trace]
    split_ifs <;> simp [List.filter, is_close]

theorem set_local_time_aborts (os : Os) (lt : Option hs_date_time) :
    aborts_on_first_failure os (hs_time_set_local_time os lt).trace = true := by
  cases lt with
  | none => rfl
  | some d =>
    rw [set_local_time_trace]
    split_ifs with hm
    · simp [hm, aborts_on_first_failure, call_failed]
    · simp [hm, aborts_on_first_failure, call_failed]

theorem set_hw_trace (os : Os) (dev : List Char) :
    (hs_time_set_hardware_clock_from_system_time os (some dev)).trace
      = (hs_time_get_local_time os (some hs_date_time.zero)).trace ++
        (if (hs_time_get_local_time os (some hs_date_time.zero)).ret ≠ 0 then []
         else if os.open_rdwr dev < 0 then [OsCall.open_rdwr dev]
         else [OsCall.open_rdwr dev,
               OsCall.ioctl_set_time (os.open_rdwr dev)
                 ((hs_time_date_time_to_rtc_time (some rtc_time.zero)
                   (some ((hs_time_get_local_time os (some hs_date_time.zero)).out.getD
                     hs_date_time.zero))).2.getD rtc_time.zero),
               OsCall.close (os.open_rdwr dev)]) := by
  simp only [hs_time_set_hardware_clock_from_system_time, date_time_to_rtc_time_fst]
  split_ifs <;> simp_all

theorem set_hw_ret (os : Os) (dev : List Char) :
    (hs_time_set_hardware_clock_from_system_time os (some dev)).ret
      = (if (hs_time_get_local_time os (some hs_date_time.zero)).ret ≠ 0 then -2
         else if os.open_rdwr dev < 0 then -4
         else if os.ioctl_set_time (os.open_rdwr dev)
                 ((hs_time_date_time_to_rtc_time (some rtc_time.zero)
                   (some ((hs_time_get_local_time os (some hs_date_time.zero)).out.getD
                     hs_date_time.zero))).2.getD rtc_time.zero) = -1 then -5
         else 0) := by
  simp only [hs_time_set_hardware_clock_from_system_time, date_time_to_rtc_time_fst]
  split_ifs <;> simp_all

theorem set_sys_trace (os : Os) (dev : List Char) :
    (hs_time_set_system_time_from_hardware_clock os (some dev)).trace
      = OsCall.open_rdwr dev ::
        (if os.open_rdwr dev < 0 then []
         else OsCall.ioctl_rd_time (os.open_rdwr dev) :: OsCall.close (os.open_rdwr dev) ::
          (if (os.ioctl_rd_time (os.open_rdwr dev)).1 = -1 then []
           else (hs_time_set_local_time os
             (hs_time_rtc_time_to_date_time (some hs_date_time.zero)
               (some (os.ioctl_rd_time (os.open_rdwr dev)).2)).2).trace)) := by
  simp only [hs_time_set_system_time_from_hardware_clock, rtc_time_to_date_time_fst,
    rtc_time_to_date_time_snd]
  split_ifs <;> simp_all

theorem set_sys_ret (os : Os) (dev : List Char) :
    (hs_time_set_system_time_from_hardware_clock os (some dev)).ret
      = (if os.open_rdwr dev < 0 then -2
         else if (os.ioctl_rd_time (os.open_rdwr dev)).1 = -1 then -3
         else if (hs_time_set_local_time os
             (hs_time_rtc_time_to_date_time (some hs_date_time.zero)
               (some (os.ioctl_rd_time (os.open_rdwr dev)).2)).2).ret ≠ 0 then -5
         else 0) := by
  simp only [hs_time_set_system_time_from_hardware_clock, rtc_time_to_date_time_fst,
    rtc_time_to_date_time_snd]
  split_ifs <;> simp_all

theorem set_hw_device_calls (os : Os) (dev : List Char)
    (h : (hs_time_set_hardware_clock_from_system_time os (some dev)).trace.any is_device_call
      = true) :
    (hs_time_get_local_time os (some hs_date_time.zero)).ret = 0 := by
  by_contra hne
  rw [set_hw_trace, if_pos hne, List.append_nil, get_local_time_trace] at h
  by_cases hc : (os.clock_gettime clockid.CLOCK_REALTIME).1 = -1
  · simp [hc, is_device_call] at h
  · simp [hc, is_device_call] at h

theorem set_hw_aborts (os : Os) (dev : List Char) :
    aborts_on_first_failure os
      (hs_time_set_hardware_clock_from_system_time os (some dev)).trace = true := by
  rw [set_hw_trace, get_local_time_ret, get_local_time_trace]
  by_cases hc : (os.clock_gettime clockid.CLOCK_REALTIME).1 = -1
  · simp [hc, aborts_on_first_failure, call_failed]
  · cases hl : os.localtime_r (os.clock_gettime clockid.CLOCK_REALTIME).2.tv_sec with
    | none => simp [hc, hl, aborts_on_first_failure, call_failed]
    | some t =>
      by_cases hf : os.open_rdwr dev < 0
      · simp [hc, hl, hf, aborts_on_first_failure, call_failed]
      · by_cases hi : os.ioctl_set_time (os.open_rdwr dev)
            ((hs_time_date_time_to_rtc_time (some rtc_time.zero)
              (some ((hs_time_get_local_time os (some hs_date_time.zero)).out.getD
                hs_date_time.zero))).2.getD rtc_time.zero) = -1
        · simp [hc, hl, hf, hi, aborts_on_first_failure, call_failed, is_close]
        · simp [hc, hl, hf, hi, aborts_on_first_failure, call_failed, is_close]

theorem set_hw_closes (os : Os) (dev : List Char) :
    (hs_time_set_hardware_clock_from_system_time os (some dev)).trace.filter is_close
      = (if (hs_time_get_local_time os (some hs_date_time.zero)).ret = 0 ∧ 0 ≤ os.open_rdwr dev
         then [OsCall.close (os.open_rdwr dev)] else []) := by
  rw [set_hw_trace, get_local_time_trace]
  by_cases hc : (os.clock_gettime clockid.CLOCK_REALTIME).1 = -1 <;>
    by_cases hg : (hs_time_get_local_time os (some hs_date_time.zero)).ret = 0 <;>
    by_cases hf : os.open_rdwr dev < 0 <;>
    simp [hc, hg, hf, List.filter, is_close, not_lt.mp, not_le.mpr]

theorem set_sys_clock_writes (os : Os) (dev : List Char)
    (h : (hs_time_set_system_time_from_hardware_clock os (some dev)).trace.any is_clock_write
      = true) :
    0 ≤ os.open_rdwr dev ∧ (os.ioctl_rd_time (os.open_rdwr dev)).1 ≠ -1 := by
  rw [set_sys_trace] at h
  by_cases hf : os.open_rdwr dev < 0
  · simp [hf, is_clock_write] at h
  · by_cases hr : (os.ioctl_rd_time (os.open_rdwr dev)).1 = -1
    · simp [hf, hr, is_clock_write] at h
    · exact ⟨not_lt.mp hf, hr⟩

theorem set_sys_aborts (os : Os) (dev : List Char) :
    aborts_on_first_failure os
      (hs_time_set_system_time_from_hardware_clock os (some dev)).trace = true := by
  rw [set_sys_trace]
  by_cases hf : os.open_rdwr dev < 0
  · simp [hf, aborts_on_first_failure, call_failed]
  · by_cases hr : (os.ioctl_rd_time (os.open_rdwr dev)).1 = -1
    · simp [hf, hr, aborts_on_first_failure, call_failed, is_close]
    · have hL := set_local_time_aborts os
        (hs_time_rtc_time_to_date_time (some hs_date_time.zero)
          (some (os.ioctl_rd_time (os.open_rdwr dev)).2)).2
      simp [hf, hr, hL, aborts_on_first_failure, call_failed]

theorem set_sys_closes (os : Os) (dev : List Char) :
    (hs_time_set_system_time_from_hardware_clock os (some dev)).trace.filter is_close
      = (if 0 ≤ os.open_rdwr dev then [OsCall.close (os.open_rdwr dev)] else []) := by
  rw [set_sys_trace]
  by_cases hf : os.open_rdwr dev < 0
  · simp [hf, List.filter, is_close]
  · by_cases hr : (os.ioctl_rd_time (os.open_rdwr dev)).1 = -1
    · simp [hf, hr, List.filter, is_close, not_lt.mp hf]
    · have hL := set_local_time_closes os
        (hs_time_rtc_time_to_date_time (some hs_date_time.zero)
          (some (os.ioctl_rd_time (os.open_rdwr dev)).2)).2
      simp [hf, hr, hL, List.filter, is_close, not_lt.mp hf]

/-- C9: with the primitives recorded as a trace, for every behaviour of the
operating system: `hs_time_set_hardware_clock_from_system_time` makes no device
call unless the system time was read successfully, returns -4 after a failed open
with no ioctl and no close, -5 after a failed `RTC_SET_TIME` and the close;
`hs_time_set_system_time_from_hardware_clock` returns -2 after a failed open, -3
after a failed `RTC_RD_TIME` and the close, and reaches `mktime`/`clock_settime`
only when the device read succeeded; in both, a successful open is followed by
exactly one close of that descriptor (and there is no other close), and after
the first failing call nothing but that close is called. -/
theorem hardware_clock_traces (os : Os) (dev : List Char) :
    (hs_time_set_hardware_clock_from_system_time os (some dev)).trace
      = (hs_time_get_local_time os (some hs_date_time.zero)).trace ++
        (if (hs_time_get_local_time os (some hs_date_time.zero)).ret ≠ 0 then []
         else if os.open_rdwr dev < 0 then [OsCall.open_rdwr dev]
         else [OsCall.open_rdwr dev,
               OsCall.ioctl_set_time (os.open_rdwr dev)
                 ((hs_time_date_time_to_rtc_time (some rtc_time.zero)
                   (some ((hs_time_get_local_time os (some hs_date_time.zero)).out.getD
                     hs_date_time.zero))).2.getD rtc_time.zero),
               OsCall.close (os.open_rdwr dev)]) ∧
    (hs_time_set_hardware_clock_from_system_time os (some dev)).ret
      = (if (hs_time_get_local_time os (some hs_date_time.zero)).ret ≠ 0 then -2
         else if os.open_rdwr dev < 0 then -4
         else if os.ioctl_set_time (os.open_rdwr dev)
                 ((hs_time_date_time_to_rtc_time (some rtc_time.zero)
                   (some ((hs_time_get_local_time os (some hs_date_time.zero)).out.getD
                     hs_date_time.zero))).2.getD rtc_time.zero) = -1 then -5
         else 0) ∧
    ((hs_time_set_hardware_clock_from_system_time os (some dev)).trace.any is_device_call = true →
      (hs_time_get_local_time os (some hs_date_time.zero)).ret = 0) ∧
    aborts_on_first_failure os
      (hs_time_set_hardware_clock_from_system_time os (some dev)).trace = true ∧
    (hs_time_set_hardware_clock_from_system_time os (some dev)).trace.filter is_close
      = (if (hs_time_get_local_time os (some hs_date_time.zero)).ret = 0 ∧ 0 ≤ os.open_rdwr dev
         then [OsCall.close (os.open_rdwr dev)] else []) ∧
    (hs_time_set_system_time_from_hardware_clock os (some dev)).trace
      = OsCall.open_rdwr dev ::
        (if os.open_rdwr dev < 0 then []
         else OsCall.ioctl_rd_time (os.open_rdwr dev) :: OsCall.close (os.open_rdwr dev) ::
          (if (os.ioctl_rd_time (os.open_rdwr dev)).1 = -1 then []
           else (hs_time_set_local_time os
             (hs_time_rtc_time_to_date_time (some hs_date_time.zero)
               (some (os.ioctl_rd_time (os.open_rdwr dev)).2)).2).trace)) ∧
    (hs_time_set_system_time_from_hardware_clock os (some dev)).ret
      = (if os.open_rdwr dev < 0 then -2
         else if (os.ioctl_rd_time (os.open_rdwr dev)).1 = -1 then -3
         else if (hs_time_set_local_time os
             (hs_time_rtc_time_to_date_time (some hs_date_time.zero)
               (some (os.ioctl_rd_time (os.open_rdwr dev)).2)).2).ret ≠ 0 then -5
         else 0) ∧
    ((hs_time_set_system_time_from_hardware_clock os (some dev)).trace.any is_clock_write = true →
      0 ≤ os.open_rdwr dev ∧ (os.ioctl_rd_time (os.open_rdwr dev)).1 ≠ -1) ∧
    aborts_on_first_failure os
      (hs_time_set_system_time_from_hardware_clock os (some dev)).trace = true ∧
    (hs_time_set_system_time_from_hardware_clock os (some dev)).trace.filter is_close
      = (if 0 ≤ os.open_rdwr dev then [OsCall.close (os.open_rdwr dev)] else []) := by
  exact ⟨set_hw_trace os dev, set_hw_ret os dev, set_hw_device_calls os dev, set_hw_aborts os dev,
    set_hw_closes os dev, set_sys_trace os dev, set_sys_ret os dev, set_sys_clock_writes os dev,
    set_sys_aborts os dev, set_sys_closes os dev⟩

/-- C6: let `d` be a calendar value in the documented ranges that
`hs_time_set_hardware_clock_from_system_time` reads as the system time, with the
device opened successfully. The operation hands `RTC_SET_TIME` the record that
`hs_time_date_time_to_rtc_time` makes of `d`; `hs_time_rtc_time_to_date_time` turns
that record back into `d`, field for field; and when a device returns that record
to `RTC_RD_TIME`, `hs_time_set_system_time_from_hardware_clock` sets the system
clock from `d`: after open, ioctl and close it does what
`hs_time_set_local_time` does for `d`. -/
theorem hardware_clock_round_trip (os : Os) (dev : List Char) (d0 d : hs_date_time)
    (hdoc : d.documented)
    (hret : (hs_time_get_local_time os (some hs_date_time.zero)).ret = 0)
    (hout : (hs_time_get_local_time os (some hs_date_time.zero)).out = some d)
    (hopen : 0 ≤ os.open_rdwr dev) :
    OsCall.ioctl_set_time (os.open_rdwr dev)
        ((hs_time_date_time_to_rtc_time (some rtc_time.zero) (some d)).2.getD rtc_time.zero)
      ∈ (hs_time_set_hardware_clock_from_system_time os (some dev)).trace ∧
    hs_time_rtc_time_to_date_time (some d0)
        (hs_time_date_time_to_rtc_time (some rtc_time.zero) (some d)).2 = (0, some d) ∧
    ∀ (os2 : Os) (dev2 : List Char) (r : Int), 0 ≤ os2.open_rdwr dev2 → r ≠ -1 →
      os2.ioctl_rd_time (os2.open_rdwr dev2)
        = (r, (hs_time_date_time_to_rtc_time (some rtc_time.zero) (some d)).2.getD
            rtc_time.zero) →
      (hs_time_set_system_time_from_hardware_clock os2 (some dev2)).trace
        = [OsCall.open_rdwr dev2, OsCall.ioctl_rd_time (os2.open_rdwr dev2),
            OsCall.close (os2.open_rdwr dev2)] ++ (hs_time_set_local_time os2 (some d)).trace ∧
      (hs_time_set_system_time_from_hardware_clock os2 (some dev2)).ret
        = (if (hs_time_set_local_time os2 (some d)).ret ≠ 0 then -5 else 0) := by
  have hrep := documented_representable d hdoc
  have hw : d.tm_wday ≠ 0 := by
    unfold hs_date_time.documented at hdoc; omega
  have hpair : ∀ d1 : hs_date_time, hs_time_rtc_time_to_date_time (some d1)
      (hs_time_date_time_to_rtc_time (some rtc_time.zero) (some d)).2 = (0, some d) := by
    intro d1
    rw [rtc_pair_eq rtc_time.zero d1 d hrep, (wday_fix_eq_iff d).mpr hw]
  refine ⟨?_, hpair d0, ?_⟩
  · rw [set_hw_trace, hout]
    simp [hret, not_lt.mpr hopen]
  · intro os2 dev2 r ho hr hrd
    have hsome : some ((hs_time_date_time_to_rtc_time (some rtc_time.zero) (some d)).2.getD
        rtc_time.zero) = (hs_time_date_time_to_rtc_time (some rtc_time.zero) (some d)).2 := rfl
    rw [set_sys_trace, set_sys_ret, hrd]
    simp only [hsome, hpair]
    simp [not_lt.mpr ho, hr]

/-- C6 for the system time 2023-11-14 22:13:20 (a Tuesday, day 318 of the year)
and the device `/dev/rtc0`. -/
theorem hardware_clock_round_trip_witness :
    hs_time_rtc_time_to_date_time (some hs_date_time.zero)
        (hs_time_date_time_to_rtc_time (some rtc_time.zero)
          (some ⟨2023, 11, 14, 22, 13, 20, 318, 2⟩)).2
      = (0, some ⟨2023, 11, 14, 22, 13, 20, 318, 2⟩) :=
  (hardware_clock_round_trip (demo_os ⟨1700000000, 0⟩ rtc_time.zero) "/dev/rtc0".toList
    hs_date_time.zero ⟨2023, 11, 14, 22, 13, 20, 318, 2⟩ (by decide) (by decide) (by decide)
    (by decide)).2.1

/-! ### The UTC calendar routines -/

theorem year_of_era_parts (a f q k r e b c d : Int)
    (hf : 0 ≤ f ∧ f ≤ 3) (hq : 0 ≤ q ∧ q ≤ 24) (hk : 0 ≤ k ∧ k ≤ 3) (hr : 0 ≤ r ∧ r ≤ 365)
    (hr365 : r = 365 → k = 3)
    (ha : a = 36524 * f + 1461 * q + 365 * k + r)
    (he : e = a / 1460) (hb : b = (a - e + f) / 365) (hc : c = b / 4) (hd : d = b / 100) :
    b = 100 * f + 4 * q + k ∧ a - (365 * b + c - d) = r := by
  have ht : e = 25 * f + q ∨ e = 25 * f + q + 1 := by omega
  have hb2 : b = 100 * f + 4 * q + k := by
    rcases ht with ht | ht <;> omega
  have hc2 : c = 25 * f + q := by omega
  have hd2 : d = f := by omega
  exact ⟨hb2, by omega⟩

theorem year_of_era_spec (a : Int) (h0 : 0 ≤ a) (h1 : a ≤ 146096) :
    (0 ≤ year_of_era a ∧ year_of_era a ≤ 399) ∧
    0 ≤ a - (365 * year_of_era a + year_of_era a / 4 - year_of_era a / 100) ∧
    a - (365 * year_of_era a + year_of_era a / 4 - year_of_era a / 100) ≤ 365 := by
  by_cases hlast : a = 146096
  · subst hlast; decide
  · have hg : a / 146096 = 0 := by omega
    have hyoe : year_of_era a = (a - a / 1460 + a / 36524) / 365 := by
      unfold year_of_era; rw [hg, sub_zero]
    by_cases hleap : a % 36524 % 1461 = 1460
    · have h := year_of_era_parts a (a / 36524) (a % 36524 / 1461) 3 365 (a / 1460)
        (year_of_era a) (year_of_era a / 4) (year_of_era a / 100)
        (by omega) (by omega) (by omega) (by omega) (by omega) (by omega) rfl hyoe rfl rfl
      omega
    · have h := year_of_era_parts a (a / 36524) (a % 36524 / 1461) (a % 36524 % 1461 / 365)
        (a % 36524 % 1461 % 365) (a / 1460)
        (year_of_era a) (year_of_era a / 4) (year_of_era a / 100)
        (by omega) (by omega) (by omega) (by omega) (by omega) (by omega) rfl hyoe rfl rfl
      omega

theorem days_from_civil_of_parts (era yoe doy : Int) (hy : 0 ≤ yoe ∧ yoe ≤ 399)
    (hd : 0 ≤ doy ∧ doy ≤ 365) :
    days_from_civil
        (if (if (5 * doy + 2) / 153 < 10 then (5 * doy + 2) / 153 + 3
             else (5 * doy + 2) / 153 - 9) ≤ 2
         then yoe + era * 400 + 1 else yoe + era * 400)
        (if (5 * doy + 2) / 153 < 10 then (5 * doy + 2) / 153 + 3 else (5 * doy + 2) / 153 - 9)
        (doy - (153 * ((5 * doy + 2) / 153) + 2) / 5 + 1)
      = era * 146097 + (yoe * 365 + yoe / 4 - yoe / 100 + doy) - 719468 ∧
    (1 ≤ (if (5 * doy + 2) / 153 < 10 then (5 * doy + 2) / 153 + 3
          else (5 * doy + 2) / 153 - 9) ∧
     (if (5 * doy + 2) / 153 < 10 then (5 * doy + 2) / 153 + 3
          else (5 * doy + 2) / 153 - 9) ≤ 12) ∧
    (1 ≤ doy - (153 * ((5 * doy + 2) / 153) + 2) / 5 + 1 ∧
     doy - (153 * ((5 * doy + 2) / 153) + 2) / 5 + 1 ≤ 31) := by
  obtain ⟨mp, hmp⟩ : ∃ mp, mp = (5 * doy + 2) / 153 := ⟨_, rfl⟩
  rw [← hmp]
  have hmp0 : 0 ≤ mp ∧ mp ≤ 11 := by omega
  unfold days_from_civil
  by_cases h10 : mp < 10
  · have hm2 : ¬ (mp + 3 ≤ 2) := by omega
    have hm3 : mp + 3 > 2 := by omega
    simp only [h10, if_true, hm2, if_false, hm3]
    have hera : (yoe + era * 400) / 400 = era := by omega
    rw [hera]
    refine ⟨?_, by omega, by omega⟩
    have hmp3 : mp + 3 - 3 = mp := by omega
    rw [hmp3]
    omega
  · have hm2 : mp - 9 ≤ 2 := by omega
    have hm3 : ¬ (mp - 9 > 2) := by omega
    simp only [h10, if_false, hm2, if_true, hm3]
    have hera : (yoe + era * 400 + 1 - 1) / 400 = era := by omega
    rw [hera]
    refine ⟨?_, by omega, by omega⟩
    have hmp3 : mp - 9 + 9 = mp := by omega
    rw [hmp3]
    omega

theorem civil_from_days_spec (z : Int) :
    days_from_civil (civil_from_days z).1 (civil_from_days z).2.1 (civil_from_days z).2.2 = z ∧
    (1 ≤ (civil_from_days z).2.1 ∧ (civil_from_days z).2.1 ≤ 12) ∧
    (1 ≤ (civil_from_days z).2.2 ∧ (civil_from_days z).2.2 ≤ 31) ∧
    (400 * ((z + 719468) / 146097) ≤ (civil_from_days z).1 ∧
      (civil_from_days z).1 ≤ 400 * ((z + 719468) / 146097) + 400) := by
  obtain ⟨era, hera⟩ : ∃ era, era = (z + 719468) / 146097 := ⟨_, rfl⟩
  obtain ⟨doe, hdoe⟩ : ∃ doe, doe = (z + 719468) - era * 146097 := ⟨_, rfl⟩
  have hdoe0 : 0 ≤ doe ∧ doe ≤ 146096 := by omega
  obtain ⟨hyoe, hdoy0, hdoy1⟩ := year_of_era_spec doe hdoe0.1 hdoe0.2
  have hparts := days_from_civil_of_parts era (year_of_era doe)
    (doe - (365 * year_of_era doe + year_of_era doe / 4 - year_of_era doe / 100))
    hyoe ⟨hdoy0, hdoy1⟩
  simp only [civil_from_days, ← hera, ← hdoe]
  refine ⟨?_, hparts.2.1, hparts.2.2, ?_⟩
  · rw [hparts.1]; omega
  · split_ifs <;> omega

theorem days_from_civil_jan1 (era yoe doy : Int) (hy : 0 ≤ yoe ∧ yoe ≤ 399)
    (hd : 0 ≤ doy ∧ doy ≤ 365) :
    0 ≤ era * 146097 + (yoe * 365 + yoe / 4 - yoe / 100 + doy) - 719468
        - days_from_civil (if 306 ≤ doy then yoe + era * 400 + 1 else yoe + era * 400) 1 1 ∧
    era * 146097 + (yoe * 365 + yoe / 4 - yoe / 100 + doy) - 719468
        - days_from_civil (if 306 ≤ doy then yoe + era * 400 + 1 else yoe + era * 400) 1 1
      ≤ 365 := by
  have h12 : (1 : Int) ≤ 2 := by decide
  have h21 : ¬ ((1 : Int) > 2) := by decide
  simp only [days_from_civil, h12, h21, if_true, if_false]
  by_cases h306 : 306 ≤ doy
  · simp only [h306, if_true]
    omega
  · simp only [h306, if_false]
    by_cases h0 : yoe = 0
    · subst h0; omega
    · omega

theorem civil_from_days_yday (z : Int) :
    0 ≤ z - days_from_civil (civil_from_days z).1 1 1 ∧
    z - days_from_civil (civil_from_days z).1 1 1 ≤ 365 := by
  obtain ⟨era, hera⟩ : ∃ era, era = (z + 719468) / 146097 := ⟨_, rfl⟩
  obtain ⟨doe, hdoe⟩ : ∃ doe, doe = (z + 719468) - era * 146097 := ⟨_, rfl⟩
  have hdoe0 : 0 ≤ doe ∧ doe ≤ 146096 := by omega
  obtain ⟨hyoe, hdoy0, hdoy1⟩ := year_of_era_spec doe hdoe0.1 hdoe0.2
  obtain ⟨doy, hdoy⟩ : ∃ doy,
      doy = doe - (365 * year_of_era doe + year_of_era doe / 4 - year_of_era doe / 100) :=
    ⟨_, rfl⟩
  have hjan := days_from_civil_jan1 era (year_of_era doe) doy hyoe (by omega)
  have hyear : (civil_from_days z).1
      = (if 306 ≤ doy then year_of_era doe + era * 400 + 1 else year_of_era doe + era * 400) := by
    simp only [civil_from_days, ← hera, ← hdoe, ← hdoy]
    split_ifs <;> omega
  rw [hyear]
  have hz : z = era * 146097
      + (year_of_era doe * 365 + year_of_era doe / 4 - year_of_era doe / 100 + doy) - 719468 := by
    omega
  rw [← hz] at hjan
  exact hjan

theorem days_from_civil_day (y m d : Int) :
    days_from_civil y m 1 + (d - 1) = days_from_civil y m d := by
  simp only [days_from_civil]
  split_ifs <;> omega

theorem utc_mktime_eq (T : Int) (x : tm)
    (hT : -9223372036854775808 ≤ T ∧ T ≤ 9223372036854775807)
    (hy : x.tm_year = (civil_from_days (T / 86400)).1 - 1900)
    (hm : x.tm_mon = (civil_from_days (T / 86400)).2.1 - 1)
    (hd : x.tm_mday = (civil_from_days (T / 86400)).2.2)
    (hh : x.tm_hour = T % 86400 / 3600) (hmi : x.tm_min = T % 86400 / 60 % 60)
    (hs : x.tm_sec = T % 86400 % 60) :
    utc_mktime x = T := by
  obtain ⟨hinv, hmon, _, _⟩ := civil_from_days_spec (T / 86400)
  have h12 : ((civil_from_days (T / 86400)).2.1 - 1) / 12 = 0 := by omega
  have hmod : ((civil_from_days (T / 86400)).2.1 - 1) % 12 + 1
      = (civil_from_days (T / 86400)).2.1 := by omega
  have hyear : (civil_from_days (T / 86400)).1 - 1900 + 1900 + 0
      = (civil_from_days (T / 86400)).1 := by omega
  unfold utc_mktime
  simp only [hy, hm, hd, hh, hmi, hs, h12, hmod, hyear, days_from_civil_day, hinv]
  have hval : T / 86400 * 86400 + T % 86400 / 3600 * 3600 + T % 86400 / 60 % 60 * 60
      + T % 86400 % 60 = T := by omega
  rw [hval, if_pos hT]

theorem utc_localtime_r_eq (T : Int) (h : 0 ≤ T ∧ T ≤ 2147483647) :
    utc_localtime_r T = some
      { tm_sec := T % 86400 % 60
        tm_min := T % 86400 / 60 % 60
        tm_hour := T % 86400 / 3600
        tm_mday := (civil_from_days (T / 86400)).2.2
        tm_mon := (civil_from_days (T / 86400)).2.1 - 1
        tm_year := (civil_from_days (T / 86400)).1 - 1900
        tm_wday := (T / 86400 + 4) % 7
        tm_yday := T / 86400 - days_from_civil (civil_from_days (T / 86400)).1 1 1
        tm_isdst := 0 } := by
  obtain ⟨_, _, _, hyr⟩ := civil_from_days_spec (T / 86400)
  have hr : int_range ((civil_from_days (T / 86400)).1 - 1900) := by
    unfold int_range; omega
  unfold utc_localtime_r
  simp only [hr, if_true]

theorem utc_localtime_r_native_range (T : Int) (h : 0 ≤ T ∧ T ≤ 2147483647) :
    ∃ rec : tm, utc_localtime_r T = some rec ∧ rec.native_range ∧ rec.tm_isdst = 0 := by
  obtain ⟨_, hmon, hday, hyr⟩ := civil_from_days_spec (T / 86400)
  obtain ⟨hy0, hy1⟩ := civil_from_days_yday (T / 86400)
  refine ⟨_, utc_localtime_r_eq T h, ?_, rfl⟩
  simp only [tm.native_range]
  omega

theorem utc_mktime_round (T : Int) (c : hs_date_time) (hT : 0 ≤ T ∧ T ≤ 2147483647)
    (f1 : c.tm_year = to_uint16 ((civil_from_days (T / 86400)).1 - 1900 + 1900))
    (f2 : c.tm_mon = to_uint8 ((civil_from_days (T / 86400)).2.1 - 1 + 1))
    (f3 : c.tm_mday = to_uint8 (civil_from_days (T / 86400)).2.2)
    (f4 : c.tm_hour = to_uint8 (T % 86400 / 3600))
    (f5 : c.tm_min = to_uint8 (T % 86400 / 60 % 60))
    (f6 : c.tm_sec = to_uint8 (T % 86400 % 60)) :
    utc_mktime ((hs_time_date_time_to_tm (some tm.zero) (some c)).2.getD tm.zero) = T := by
  obtain ⟨_, hmon, hday, hyr⟩ := civil_from_days_spec (T / 86400)
  apply utc_mktime_eq T _ (by omega)
  all_goals
    simp only [hs_time_date_time_to_tm, Option.getD_some, f1, f2, f3, f4, f5, f6, to_uint8,
      to_uint16]
    omega

theorem utc_localtime_then_mktime (T : Int) (d0 : hs_date_time)
    (hT : 0 ≤ T ∧ T ≤ 2147483647) :
    ∃ c, (hs_time_tm_to_date_time (some d0) (utc_localtime_r T)).2 = some c ∧
      utc_mktime ((hs_time_date_time_to_tm (some tm.zero) (some c)).2.getD tm.zero) = T := by
  rw [utc_localtime_r_eq T hT]
  exact ⟨_, rfl, utc_mktime_round T _ hT rfl rfl rfl rfl rfl rfl⟩

theorem to_int64_small (t : Nat) (ht : t ≤ 2147483647) : to_int64 t = (t : Int) := by
  unfold to_int64
  rw [if_pos (by omega)]

theorem to_uint64_small (t : Nat) (ht : t ≤ 2147483647) : to_uint64 (t : Int) = t := by
  unfold to_uint64
  omega

theorem convert_unix_to_local_utc (os : Os) (d0 : hs_date_time) (t : Nat)
    (ht : t ≤ 2147483647) :
    hs_time_convert_unix_to_local (utc_os os) (some d0) t
      = ⟨0, (hs_time_tm_to_date_time (some d0) (utc_localtime_r (t : Int))).2,
          [OsCall.localtime_r (t : Int)]⟩ := by
  have hloc := utc_localtime_r_eq (t : Int) (by omega)
  simp only [hs_time_convert_unix_to_local, utc_os, to_int64_small t ht, hloc,
    tm_to_date_time_fst]
  simp

theorem convert_unix_to_local_utc_some (os : Os) (d0 c : hs_date_time) (t : Nat)
    (ht : t ≤ 2147483647)
    (hc : (hs_time_tm_to_date_time (some d0) (utc_localtime_r (t : Int))).2 = some c) :
    hs_time_convert_unix_to_local (utc_os os) (some d0) t
      = ⟨0, some c, [OsCall.localtime_r (t : Int)]⟩ := by
  rw [convert_unix_to_local_utc os d0 t ht, hc]

theorem convert_local_to_unix_utc (os : Os) (u0 t : Nat) (c : hs_date_time)
    (ht : t ≤ 2147483647)
    (hmk : utc_mktime ((hs_time_date_time_to_tm (some tm.zero) (some c)).2.getD tm.zero)
      = (t : Int)) :
    hs_time_convert_local_to_unix (utc_os os) (some u0) (some c)
      = ⟨0, some t,
          [OsCall.mktime ((hs_time_date_time_to_tm (some tm.zero) (some c)).2.getD tm.zero)]⟩ := by
  have hne : (t : Int) ≠ -1 := by omega
  simp only [hs_time_convert_local_to_unix, date_time_to_tm_fst, utc_os, hmk]
  simp [hne, to_uint64_small t ht]

/-- C7: under UTC, for every Unix timestamp `t` with `0 ≤ t ≤ 2147483647` (so for
0, 1700000000 and 2147483647), `hs_time_convert_unix_to_local` returns 0 with a
calendar value `c`, and `hs_time_convert_local_to_unix` of `c` returns 0 and stores
exactly `t`; its only call is `mktime`, on the record that
`hs_time_date_time_to_tm` writes into a zeroed `struct tm`, whose `tm_isdst` is
still 0. -/
theorem unix_round_trip (os : Os) (d0 : hs_date_time) (u0 t : Nat) (ht : t ≤ 2147483647) :
    ∃ c : hs_date_time,
      (hs_time_convert_unix_to_local (utc_os os) (some d0) t).ret = 0 ∧
      (hs_time_convert_unix_to_local (utc_os os) (some d0) t).out = some c ∧
      (hs_time_convert_local_to_unix (utc_os os) (some u0) (some c)).ret = 0 ∧
      (hs_time_convert_local_to_unix (utc_os os) (some u0) (some c)).out = some t ∧
      (hs_time_convert_local_to_unix (utc_os os) (some u0) (some c)).trace
        = [OsCall.mktime ((hs_time_date_time_to_tm (some tm.zero) (some c)).2.getD tm.zero)] ∧
      ((hs_time_date_time_to_tm (some tm.zero) (some c)).2.getD tm.zero).tm_isdst = 0 := by
  obtain ⟨c, hc, hmk⟩ := utc_localtime_then_mktime (t : Int) d0 (by omega)
  have h1 := convert_unix_to_local_utc_some os d0 c t ht hc
  have h2 := convert_local_to_unix_utc os u0 t c ht hmk
  refine ⟨c, ?_, ?_, ?_, ?_, ?_, rfl⟩
  · rw [h1]
  · rw [h1]
  · rw [h2]
  · rw [h2]
  · rw [h2]

/-- C7 at the timestamps 0, 1700000000 and 2147483647. -/
theorem unix_round_trip_witness :
    (∃ c : hs_date_time,
      (hs_time_convert_unix_to_local (utc_os (demo_os ⟨0, 0⟩ rtc_time.zero))
        (some hs_date_time.zero) 0).out = some c ∧
      (hs_time_convert_local_to_unix (utc_os (demo_os ⟨0, 0⟩ rtc_time.zero))
        (some 7) (some c)).out = some 0) ∧
    (∃ c : hs_date_time,
      (hs_time_convert_unix_to_local (utc_os (demo_os ⟨0, 0⟩ rtc_time.zero))
        (some hs_date_time.zero) 1700000000).out = some c ∧
      (hs_time_convert_local_to_unix (utc_os (demo_os ⟨0, 0⟩ rtc_time.zero))
        (some 7) (some c)).out = some 1700000000) ∧
    (∃ c : hs_date_time,
      (hs_time_convert_unix_to_local (utc_os (demo_os ⟨0, 0⟩ rtc_time.zero))
        (some hs_date_time.zero) 2147483647).out = some c ∧
      (hs_time_convert_local_to_unix (utc_os (demo_os ⟨0, 0⟩ rtc_time.zero))
        (some 7) (some c)).out = some 2147483647) := by
  refine ⟨?_, ?_, ?_⟩
  · obtain ⟨c, _, h2, _, h4, _⟩ := unix_round_trip (demo_os ⟨0, 0⟩ rtc_time.zero)
      hs_date_time.zero 7 0 (by decide)
    exact ⟨c, h2, h4⟩
  · obtain ⟨c, _, h2, _, h4, _⟩ := unix_round_trip (demo_os ⟨0, 0⟩ rtc_time.zero)
      hs_date_time.zero 7 1700000000 (by decide)
    exact ⟨c, h2, h4⟩
  · obtain ⟨c, _, h2, _, h4, _⟩ := unix_round_trip (demo_os ⟨0, 0⟩ rtc_time.zero)
      hs_date_time.zero 7 2147483647 (by decide)
    exact ⟨c, h2, h4⟩

end HsTime
